import Mathlib

/-!
Shallow embedding of the icebreaker engine: the RAG profile-analysis module,
the `ConversationService` selection/personalization engine and the
`IntelligentQuestionService` AI-fallback pipeline, together with theorems
settling the specification claims about them.

Conventions of the embedding:
* JS strings are Lean `String`s; optional / possibly-`undefined` fields are
  `Option`s, and JS truthiness (`undefined`, `""`, `0` falsy) is made explicit.
* JS numbers are modelled as exact rationals `ℚ` (the arithmetic this code
  performs stays well inside the range where IEEE doubles are exact or the
  rounding is irrelevant; the one spot where a double constant matters,
  the 30.44-days-per-month divisor, is noted at its definition).
* `Math.random()` is modelled as an injectable stream `ℕ → ℚ` of draws
  together with a cursor that each consuming operation advances, matching
  the call order of the source.
* Functions keep the names of the source functions they embed.
-/

set_option linter.unusedVariables false

namespace Icebreaker

/-! ## JS string primitives -/

/-- Model of JS `String.prototype.toLowerCase` on the ASCII data this
codebase manipulates (character-wise lower-casing). -/
def lowerStr (s : String) : String := String.mk (s.data.map Char.toLower)

/-- Boolean list-prefix test (used to model substring search). -/
def listPrefixOfB : List Char → List Char → Bool
  | [], _ => true
  | _ :: _, [] => false
  | p :: ps, c :: cs => p == c && listPrefixOfB ps cs

/-- Boolean list-infix test (used to model JS `String.prototype.includes`). -/
def listInfixOfB (pat : List Char) : List Char → Bool
  | [] => listPrefixOfB pat []
  | c :: cs => listPrefixOfB pat (c :: cs) || listInfixOfB pat cs

/-- Model of JS `s.toLowerCase().includes(pat)` for a lower-case literal `pat`. -/
def containsLower (s : String) (pat : String) : Bool :=
  listInfixOfB pat.data (s.data.map Char.toLower)

/-- Model of JS `s.includes(pat)` (case-sensitive). -/
def containsStr (s : String) (pat : String) : Bool := listInfixOfB pat.data s.data

/-- Model of JS `o?.toLowerCase().includes(pat)` (optional chaining:
`undefined` is falsy). -/
def optContainsLower (o : Option String) (pat : String) : Bool :=
  match o with
  | some t => containsLower t pat
  | none => false

/-- JS truthiness of an optional string (`undefined` and `""` are falsy). -/
def strTruthy : Option String → Bool
  | some s => !(s == "")
  | none => false

/-- JS `x || d` for an optional string `x` (empty string falls through to `d`). -/
def orStr (x : Option String) (d : String) : String :=
  match x with
  | some s => if s == "" then d else s
  | none => d

/-- JS `a || b || ... || d` over optional strings. -/
def orStrChain (xs : List (Option String)) (d : String) : String :=
  match xs with
  | [] => d
  | x :: rest =>
    match x with
    | some s => if s == "" then orStrChain rest d else s
    | none => orStrChain rest d

/-- JS `a || b` over optional strings, keeping the optional result. -/
def jsOrOpt (a b : Option String) : Option String :=
  if strTruthy a then a else b

/-- JS `x || []` for an optional array (every array, even `[]`, is truthy). -/
def orList (x : Option (List α)) : List α := x.getD []

/-- Rendering of a possibly-`undefined` string inside a JS template literal
(`undefined` prints as "undefined"). -/
def jsStr (o : Option String) : String := o.getD "undefined"

/-- JS truthiness of an optional number (`undefined` and `0` are falsy). -/
def numTruthy : Option ℚ → Bool
  | some q => !(q == 0)
  | none => false

/-- Decimal rendering of a rational inside a JS template literal. Exact for
numbers with a finite decimal expansion of at most eight digits — every number
this engine interpolates; no claim inspects the rendered text. -/
def jsNumStr (q : ℚ) : String :=
  let sign := if q < 0 then "-" else ""
  let a := |q|
  let num := a.num.toNat
  if a.den == 1 then sign ++ toString num
  else
    let k := (List.range 9).find? (fun k => ((a * (10 : ℚ) ^ k).den == 1 : Bool))
    match k with
    | some k =>
      let scaled := (a * (10 : ℚ) ^ k).num.toNat
      let ip := scaled / 10 ^ k
      let fp := scaled % 10 ^ k
      let fpStr := toString fp
      let pad := String.mk (List.replicate (k - fpStr.length) '0')
      sign ++ toString ip ++ "." ++ pad ++ fpStr
    | none => sign ++ toString a.num ++ "/" ++ toString a.den

/-- Insertion into the list model of a JS `Set` (insertion order, no duplicates). -/
def insertUniq (l : List String) (x : String) : List String :=
  if l.contains x then l else l ++ [x]

/-! ## Duration parsing (regex and Date models for `calculateExperienceYears`) -/

/-- Characters matched by the JS regex class `\s` (the ASCII ones; the duration
strings this code parses contain no exotic Unicode whitespace). -/
def isJsWs (c : Char) : Bool :=
  c == ' ' || c == '\t' || c == '\n' || c == '\r' || c == '\x0b' || c == '\x0c'

/-- Characters matched by the JS regex class `\w`. -/
def isJsWord (c : Char) : Bool := c.isAlphanum || c == '_'

/-- Helper: consume a run of decimal digits, accumulating the value. -/
def digitsAux (acc : Nat) : List Char → Nat × List Char
  | [] => (acc, [])
  | c :: cs => if c.isDigit then digitsAux (acc * 10 + (c.toNat - 48)) cs else (acc, c :: cs)

/-- A `\d+` at the current position: maximal leading digit run with its value. -/
def takeDigits (cs : List Char) : Option (Nat × List Char) :=
  match cs with
  | c :: rest => if c.isDigit then some (digitsAux (c.toNat - 48) rest) else none
  | [] => none

/-- Case-insensitive literal match at the current position (`pat` lower-case),
returning the remaining input. -/
def stripLitCI : List Char → List Char → Option (List Char)
  | [], cs => some cs
  | _ :: _, [] => none
  | p :: ps, c :: cs => if c.toLower == p then stripLitCI ps cs else none

/-- Attempt of `(\d+)\s*(?:yr|year)s?` (case-insensitive) anchored at the head
of the input; returns the numeric capture. The trailing `s?` is irrelevant to
the capture and imposes no constraint. -/
def matchYearAt (cs : List Char) : Option Nat := do
  let (n, rest) ← takeDigits cs
  let rest := rest.dropWhile isJsWs
  match stripLitCI "yr".data rest with
  | some _ => some n
  | none =>
    match stripLitCI "year".data rest with
    | some _ => some n
    | none => none

/-- Attempt of `(\d+)\s*(?:mo|month)s?` (case-insensitive) anchored at the head
of the input (the `mo` alternative is tried first, exactly as in the source
regex; it subsumes `month`). -/
def matchMonthAt (cs : List Char) : Option Nat := do
  let (n, rest) ← takeDigits cs
  let rest := rest.dropWhile isJsWs
  match stripLitCI "mo".data rest with
  | some _ => some n
  | none => none

/-- Leftmost match of an anchored matcher: JS `String.prototype.match` without
the `g` flag scans start positions left to right. -/
def scanFirst (f : List Char → Option α) : List Char → Option α
  | [] => f []
  | c :: cs =>
    match f (c :: cs) with
    | some a => some a
    | none => scanFirst f cs

/-- First match of the year regex in the string (numeric capture). -/
def scanYear (cs : List Char) : Option Nat := scanFirst matchYearAt cs

/-- First match of the month regex in the string (numeric capture). -/
def scanMonth (cs : List Char) : Option Nat := scanFirst matchMonthAt cs

/-- Exactly three word characters (`\w{3}`). -/
def takeWord3 : List Char → Option (List Char × List Char)
  | a :: b :: c :: rest =>
    if isJsWord a && isJsWord b && isJsWord c then some ([a, b, c], rest) else none
  | _ => none

/-- `\s+`: at least one whitespace character, consumed greedily. -/
def takeWs1 : List Char → Option (List Char)
  | c :: rest => if isJsWs c then some (rest.dropWhile isJsWs) else none
  | [] => none

/-- `\d{4}`: exactly four digits with their value (further digits may follow;
they then make the next regex piece fail, as in JS). -/
def takeDigits4 : List Char → Option (Nat × List Char)
  | a :: b :: c :: d :: rest =>
    if a.isDigit && b.isDigit && c.isDigit && d.isDigit then
      some ((((a.toNat - 48) * 10 + (b.toNat - 48)) * 10 + (c.toNat - 48)) * 10
        + (d.toNat - 48), rest)
    else none
  | _ => none

/-- Second endpoint of a parsed date range: a month-year or `Present`. -/
inductive RangeEnd where
  | monthYear : List Char → Nat → RangeEnd
  | present : RangeEnd
deriving DecidableEq, Repr

/-- Attempt of `(\w{3}\s+\d{4})\s*[-–]\s*(\w{3}\s+\d{4}|Present)`
(case-insensitive) anchored at the head of the input; returns the two captures,
the first as word-characters plus year. A capture of the first alternative can
never lower-case to "present" (it contains whitespace), so distinguishing the
alternatives is faithful to the source's `=== 'present'` test. -/
def matchDateRangeAt (cs : List Char) : Option ((List Char × Nat) × RangeEnd) := do
  let (w1, r1) ← takeWord3 cs
  let r2 ← takeWs1 r1
  let (y1, r3) ← takeDigits4 r2
  let r4 := r3.dropWhile isJsWs
  let r5 ← (match r4 with
            | c :: rest => if c == '-' || c == '–' then some rest else none
            | [] => none)
  let r6 := r5.dropWhile isJsWs
  match (do
    let (w2, r7) ← takeWord3 r6
    let r8 ← takeWs1 r7
    let (y2, _) ← takeDigits4 r8
    pure ((w1, y1), RangeEnd.monthYear w2 y2) : Option ((List Char × Nat) × RangeEnd)) with
  | some r => some r
  | none =>
    match stripLitCI "present".data r6 with
    | some _ => some ((w1, y1), RangeEnd.present)
    | none => none

/-- Leftmost match of the date-range regex. -/
def scanDateRange (cs : List Char) : Option ((List Char × Nat) × RangeEnd) :=
  scanFirst matchDateRangeAt cs

/-- JS `Date` month recognition for the three-character `\w{3}` capture
(case-insensitive month abbreviations; anything else gives an invalid date). -/
def monthIndex (w : List Char) : Option Nat :=
  let l := String.mk (w.map Char.toLower)
  if l == "jan" then some 1 else if l == "feb" then some 2
  else if l == "mar" then some 3 else if l == "apr" then some 4
  else if l == "may" then some 5 else if l == "jun" then some 6
  else if l == "jul" then some 7 else if l == "aug" then some 8
  else if l == "sep" then some 9 else if l == "oct" then some 10
  else if l == "nov" then some 11 else if l == "dec" then some 12
  else none

/-- Gregorian leap-year test. -/
def isLeapYear (y : Nat) : Bool := (y % 4 == 0 && y % 100 != 0) || y % 400 == 0

/-- Days from 1 Jan of year 1 to 1 Jan of year `y` (proleptic Gregorian). -/
def daysBeforeYear (y : Nat) : Nat :=
  365 * (y - 1) + ((y - 1) / 4 - (y - 1) / 100 + (y - 1) / 400)

/-- Days from 1 Jan to the first day of month `m` (1–12) in a year of the
given leapness. -/
def daysBeforeMonth (m : Nat) (leap : Bool) : Nat :=
  let base := [0, 0, 31, 59, 90, 120, 151, 181, 212, 243, 273, 304, 334].getD m 334
  base + (if leap && 2 < m then 1 else 0)

/-- Days from the Unix epoch to the first of month `m` of year `y` (the instant
`new Date("MMM YYYY")` denotes, measured in days). -/
def daysFromEpoch (y m : Nat) : ℤ :=
  ((daysBeforeYear y + daysBeforeMonth m (isLeapYear y) : Nat) : ℤ)
    - ((daysBeforeYear 1970 : Nat) : ℤ)

/-- Epoch milliseconds of `new Date` applied to a `\w{3} \d{4}` capture:
valid exactly when the word is a month abbreviation. -/
def jsDateMs (w : List Char) (y : Nat) : Option ℤ :=
  (monthIndex w).map (fun m => daysFromEpoch y m * 86400000)

/-- `Math.ceil(d / 2630016000)` as an integer ceiling division (the lemma
`ceilAvgMonth_eq_ceil` identifies it with `⌈d / 2630016000⌉`). -/
def ceilAvgMonth (d : ℤ) : ℤ := (d + 2630016000 - 1) / 2630016000

/-- Months contributed by one non-empty duration string, following
`calculateExperienceYears`: first the year/month token regexes; if they yield
zero months, the date-range regex with the average-month conversion.
`2630016000` is `1000*60*60*24*30.44` — exact for the rational `30.44`, and
also the value the double-precision product rounds to. `nowMs` models
`new Date()` for a `Present` endpoint. -/
def expMonths (nowMs : ℤ) (duration : String) : ℤ :=
  let cs := duration.data
  let fromTokens : ℤ :=
    (match scanYear cs with | some n => (n : ℤ) * 12 | none => 0)
      + (match scanMonth cs with | some n => (n : ℤ) | none => 0)
  if fromTokens == 0 then
    match scanDateRange cs with
    | some ((w1, y1), e) =>
      let startMs := jsDateMs w1 y1
      let endMs := match e with
        | RangeEnd.monthYear w2 y2 => jsDateMs w2 y2
        | RangeEnd.present => some nowMs
      match startMs, endMs with
      | some s, some en => ceilAvgMonth |en - s|
      | _, _ => 0
    | none => 0
  else fromTokens

/-! ## Profile-analysis module (the RAG analysis service) -/

/-- One raw experience entry of the loosely-structured input profile. -/
structure RawExperience where
  title : Option String := none
  company : Option String := none
  duration : Option String := none
  isCurrent : Option Bool := none
  description : Option String := none
deriving DecidableEq, Repr

/-- One raw education entry (the analyzer reads `degree` and `school`). -/
structure RawEducation where
  school : Option String := none
  degree : Option String := none
deriving DecidableEq, Repr

/-- One raw volunteering entry (the analyzer reads `cause` and `organization`). -/
structure RawVolunteer where
  cause : Option String := none
  organization : Option String := none
deriving DecidableEq, Repr

/-- The loosely-structured input profile: every field may be absent. -/
structure RawProfile where
  name : Option String := none
  title : Option String := none
  currentRole : Option String := none
  currentCompany : Option String := none
  location : Option String := none
  industry : Option String := none
  yearsOfExperience : Option ℚ := none
  experience : Option (List RawExperience) := none
  skills : Option (List String) := none
  certifications : Option (List String) := none
  education : Option (List RawEducation) := none
  volunteerExperience : Option (List RawVolunteer) := none
  languages : Option (List String) := none
deriving DecidableEq, Repr

/-- The four career levels. -/
inductive CareerLevel where
  | entry | mid | senior | executive
deriving DecidableEq, Repr

/-- Three-valued significance / relevance / confidence tier. -/
inductive Significance where
  | high | medium | low
deriving DecidableEq, Repr

/-- Total months across all experience durations, then years rounded to one
decimal (JS `Math.round` is half-up) and floored at zero. -/
def calculateExperienceYears (nowMs : ℤ) (experience : Option (List RawExperience)) : ℚ :=
  match experience with
  | none => 0
  | some [] => 0
  | some exps =>
    let totalMonths : ℤ := exps.foldl (fun acc exp =>
      match exp.duration with
      | some d => if d == "" then acc else acc + expMonths nowMs d
      | none => acc) 0
    let totalYears : ℚ := ((Rat.floor ((totalMonths : ℚ) / 12 * 10 + 1 / 2) : ℤ) : ℚ) / 10
    max totalYears 0

/-- Career level from total years (the `experience` argument is unused, as in
the source). -/
def determineCareerLevel (years : ℚ) (experience : Option (List RawExperience)) : CareerLevel :=
  if 15 ≤ years then CareerLevel.executive
  else if 8 ≤ years then CareerLevel.senior
  else if 3 ≤ years then CareerLevel.mid
  else CareerLevel.entry

/-- Derived personal context (career level and defaulted identity fields). -/
structure PersonalContext where
  name : String
  currentRole : String
  currentCompany : String
  location : Option String
  industry : Option String
  yearsOfExperience : ℚ
  careerLevel : CareerLevel
deriving DecidableEq, Repr

/-- `extractPersonalContext`: `profile.yearsOfExperience || calculateExperienceYears(...)`
(JS `||`: an explicit non-zero value wins, zero or absence falls through). -/
def extractPersonalContext (nowMs : ℤ) (p : RawProfile) : PersonalContext :=
  let yoe : ℚ :=
    match p.yearsOfExperience with
    | some y => if y == 0 then calculateExperienceYears nowMs p.experience else y
    | none => calculateExperienceYears nowMs p.experience
  { name := orStr p.name "Professional"
    currentRole := orStrChain [p.currentRole, p.title] "Professional"
    currentCompany := orStr p.currentCompany "Current Company"
    location := p.location
    industry := p.industry
    yearsOfExperience := yoe
    careerLevel := determineCareerLevel yoe p.experience }

/-- `determineRoleSignificance`: index 0 is always high; director/vp/head
titles are high; indices 1–2 medium; the rest low. -/
def determineRoleSignificance (exp : RawExperience) (index : Nat) : Significance :=
  if index == 0 then Significance.high
  else if optContainsLower exp.title "director" || optContainsLower exp.title "vp"
      || optContainsLower exp.title "head" then Significance.high
  else if index ≤ 2 then Significance.medium
  else Significance.low

/-- One step of the derived career progression. -/
structure CareerStep where
  title : String
  company : String
  duration : Option String
  isCurrent : Bool
  significance : Significance
deriving DecidableEq, Repr

/-- Transition kinds (the TS union of the `type` field). -/
inductive TransitionType where
  | promotion | career_change | industry_switch | company_change
deriving DecidableEq, Repr

/-- A derived career transition (TS fields `from` / `to` / `type` are
`fromLabel` / `toLabel` / `ttype` here, `from` being a Lean keyword). -/
structure CareerTransition where
  fromLabel : String
  toLabel : String
  ttype : TransitionType
  significance : String
deriving DecidableEq, Repr

/-- `determineTransitionType` (note JS `===` on two absent companies is true,
hence a promotion). -/
def determineTransitionType (fromE toE : RawExperience) : TransitionType :=
  if fromE.company == toE.company then TransitionType.promotion
  else if optContainsLower fromE.title "engineer" && optContainsLower toE.title "manager" then
    TransitionType.career_change
  else TransitionType.company_change

/-- `identifyCareerTransitions`: one record per adjacent pair. -/
def identifyCareerTransitions (experience : List RawExperience) : List CareerTransition :=
  (experience.zip experience.tail).map (fun pr =>
    let current := pr.1
    let previous := pr.2
    { fromLabel := jsStr previous.title ++ " at " ++ jsStr previous.company
      toLabel := jsStr current.title ++ " at " ++ jsStr current.company
      ttype := determineTransitionType previous current
      significance := "Transitioned from " ++ jsStr previous.title ++ " to " ++ jsStr current.title })

/-- `extractIndustries` (JS `Set` modelled as insertion-ordered dedup). -/
def extractIndustries (experience : List RawExperience) : List String :=
  experience.foldl (fun acc exp =>
    let acc := if optContainsLower exp.company "tech" then insertUniq acc "Technology" else acc
    let acc := if optContainsLower exp.company "bank" then insertUniq acc "Finance" else acc
    let acc := if optContainsLower exp.title "software" then insertUniq acc "Software Development" else acc
    if optContainsLower exp.title "data" then insertUniq acc "Data Science" else acc) []

/-- `categorizeCompanies`. -/
def categorizeCompanies (experience : List RawExperience) : List String :=
  experience.foldl (fun acc exp =>
    let acc := if optContainsLower exp.company "startup" then insertUniq acc "Startup" else acc
    if optContainsLower exp.company "corp" || optContainsLower exp.company "inc" then
      insertUniq acc "Corporation" else acc) []

/-- `categorizeRoles`. -/
def categorizeRoles (experience : List RawExperience) : List String :=
  experience.foldl (fun acc exp =>
    let acc := if optContainsLower exp.title "engineer" then insertUniq acc "Engineering" else acc
    let acc := if optContainsLower exp.title "manager" then insertUniq acc "Management" else acc
    let acc := if optContainsLower exp.title "analyst" then insertUniq acc "Analysis" else acc
    if optContainsLower exp.title "director" then insertUniq acc "Leadership" else acc) []

/-- Derived professional journey. -/
structure ProfessionalJourney where
  careerProgression : List CareerStep
  keyTransitions : List CareerTransition
  industryExperience : List String
  companyTypes : List String
  roleTypes : List String
deriving DecidableEq, Repr

/-- `analyzeProfessionalJourney`: per-entry career steps
(`isCurrent: exp.isCurrent || index === 0`) plus derived sets. -/
def analyzeProfessionalJourney (p : RawProfile) : ProfessionalJourney :=
  let experience := orList p.experience
  { careerProgression := experience.enum.map (fun pr =>
      { title := orStr pr.2.title "Position"
        company := orStr pr.2.company "Company"
        duration := pr.2.duration
        isCurrent := pr.2.isCurrent == some true || pr.1 == 0
        significance := determineRoleSignificance pr.2 pr.1 })
    keyTransitions := identifyCareerTransitions experience
    industryExperience := extractIndustries experience
    companyTypes := categorizeCompanies experience
    roleTypes := categorizeRoles experience }

/-- The fixed core/business skill vocabulary. -/
def coreSkillKeywords : List String :=
  ["management", "leadership", "strategy", "communication", "project", "team"]

/-- The fixed technical skill vocabulary. -/
def techKeywords : List String :=
  ["python", "javascript", "react", "sql", "aws", "docker", "kubernetes", "machine learning", "ai"]

/-- `identifyCoreSkills`: keep the skills containing a core keyword. -/
def identifyCoreSkills (skills : List String) : List String :=
  skills.filter (fun skill => coreSkillKeywords.any (fun kw => containsLower skill kw))

/-- `identifyTechnicalSkills`: keep the skills containing a technical keyword. -/
def identifyTechnicalSkills (skills : List String) : List String :=
  skills.filter (fun skill => techKeywords.any (fun kw => containsLower skill kw))

/-- `extractIndustryKnowledge`. -/
def extractIndustryKnowledge (p : RawProfile) : List String :=
  let acc := if strTruthy p.industry then insertUniq [] (jsStr p.industry) else []
  (orList p.experience).foldl (fun acc exp =>
    match exp.description with
    | some d =>
      if d == "" then acc
      else
        let acc := if containsLower d "fintech" then insertUniq acc "FinTech" else acc
        let acc := if containsLower d "healthcare" then insertUniq acc "Healthcare" else acc
        if containsLower d "e-commerce" then insertUniq acc "E-commerce" else acc
    | none => acc) acc

/-- `identifySpecializations`. -/
def identifySpecializations (p : RawProfile) : List String :=
  (orList p.certifications).foldl (fun acc cert =>
    let acc := if containsLower cert "aws" then insertUniq acc "Cloud Computing" else acc
    let acc := if containsLower cert "pmp" then insertUniq acc "Project Management" else acc
    if containsLower cert "scrum" then insertUniq acc "Agile Methodology" else acc) []

/-- Derived expertise context. -/
structure ExpertiseContext where
  coreSkills : List String
  technicalSkills : List String
  industryKnowledge : List String
  certifications : List String
  specializations : List String
deriving DecidableEq, Repr

/-- `extractExpertiseContext`. -/
def extractExpertiseContext (p : RawProfile) : ExpertiseContext :=
  { coreSkills := identifyCoreSkills (orList p.skills)
    technicalSkills := identifyTechnicalSkills (orList p.skills)
    industryKnowledge := extractIndustryKnowledge p
    certifications := orList p.certifications
    specializations := identifySpecializations p }

/-- `extractProfessionalInterests`. -/
def extractProfessionalInterests (p : RawProfile) : List String :=
  (orList p.skills).foldl (fun acc skill =>
    let acc := if containsLower skill "innovation" then insertUniq acc "Innovation" else acc
    let acc := if containsLower skill "sustainability" then insertUniq acc "Sustainability" else acc
    if containsLower skill "digital transformation" then
      insertUniq acc "Digital Transformation" else acc) []

/-- `generateLikelyTopics`. -/
def generateLikelyTopics (p : RawProfile) : List String :=
  let acc :=
    if strTruthy p.currentRole then
      insertUniq (insertUniq [] (jsStr p.currentRole ++ " best practices"))
        ("Career growth in " ++ jsStr p.currentRole)
    else []
  let acc :=
    if strTruthy p.industry then
      insertUniq (insertUniq acc (jsStr p.industry ++ " trends"))
        ("Future of " ++ jsStr p.industry)
    else acc
  ((orList p.skills).take 3).foldl (fun acc skill => insertUniq acc (skill ++ " applications")) acc

/-- Derived interest context. -/
structure InterestContext where
  professionalInterests : List String
  volunteerCauses : List String
  educationalBackground : List String
  languages : List String
  likelyTopics : List String
deriving DecidableEq, Repr

/-- `extractInterestContext` (`v.cause || v.organization` then `.filter(Boolean)`;
education formatted "degree from school" with JS `undefined` rendering). -/
def extractInterestContext (p : RawProfile) : InterestContext :=
  let education := orList p.education
  let volunteers := orList p.volunteerExperience
  { professionalInterests := extractProfessionalInterests p
    volunteerCauses := volunteers.filterMap (fun v =>
      match jsOrOpt v.cause v.organization with
      | some s => if s == "" then none else some s
      | none => none)
    educationalBackground :=
      (education.map (fun e => jsStr e.degree ++ " from " ++ jsStr e.school)).filter
        (fun s => !(s == ""))
    languages := orList p.languages
    likelyTopics := generateLikelyTopics p }

/-- A derived conversation topic. -/
structure ConversationTopic where
  topic : String
  relevance : Significance
  context : String
  suggestedApproach : String
deriving DecidableEq, Repr

/-- Numeric tier of a relevance level (`{ high: 3, medium: 2, low: 1 }`). -/
def relevanceOrder : Significance → ℚ
  | Significance.high => 3
  | Significance.medium => 2
  | Significance.low => 1

/-- Stable insertion step of a descending sort by key (earlier elements stay
ahead of later ones with the same key), matching JS's stable `Array#sort`
with the comparator `(a, b) => key b - key a`. -/
def insertDescBy (key : α → ℚ) (x : α) : List α → List α
  | [] => [x]
  | y :: t => if key x < key y then y :: insertDescBy key x t else x :: y :: t

/-- Stable descending sort by key. -/
def sortDescBy (key : α → ℚ) : List α → List α
  | [] => []
  | x :: t => insertDescBy key x (sortDescBy key t)

/-- `generateConversationTopics`: up to one topic per signal, then a stable
sort descending by relevance tier. -/
def generateConversationTopics (p : RawProfile) (personalInfo : PersonalContext)
    (professionalJourney : ProfessionalJourney) (expertise : ExpertiseContext) :
    List ConversationTopic :=
  let topics : List ConversationTopic :=
    (if !(personalInfo.currentRole == "") && !(personalInfo.currentCompany == "") then
      [{ topic := "Current role at " ++ personalInfo.currentCompany
         relevance := Significance.high
         context := personalInfo.name ++ " is currently working as " ++ personalInfo.currentRole
           ++ " at " ++ personalInfo.currentCompany
         suggestedApproach := "Ask about their experience in their current role or recent projects at "
           ++ personalInfo.currentCompany }]
    else [])
  let topics := topics ++
    (if strTruthy personalInfo.industry then
      [{ topic := jsStr personalInfo.industry ++ " industry insights"
         relevance := Significance.high
         context := "Professional with "
           ++ (if personalInfo.yearsOfExperience == 0 then "several"
               else jsNumStr personalInfo.yearsOfExperience)
           ++ " years in " ++ jsStr personalInfo.industry
         suggestedApproach := "Discuss industry trends, challenges, or opportunities in "
           ++ jsStr personalInfo.industry }]
    else [])
  let topics := topics ++
    (professionalJourney.keyTransitions.filterMap (fun t =>
      if t.significance == "" then none
      else some
        { topic := "Career transition: " ++ t.fromLabel ++ " to " ++ t.toLabel
          relevance := Significance.medium
          context := t.significance
          suggestedApproach := "Ask about their experience transitioning from " ++ t.fromLabel
            ++ " to " ++ t.toLabel }))
  let topics := topics ++
    (if 0 < expertise.technicalSkills.length then
      [{ topic := "Technical expertise in "
           ++ String.intercalate ", " (expertise.technicalSkills.take 3)
         relevance := Significance.medium
         context := "Skilled in " ++ String.intercalate ", " expertise.technicalSkills
         suggestedApproach := "Discuss technical challenges, tools, or best practices in their area of expertise" }]
    else [])
  let topics := topics ++
    (match orList p.education with
     | [] => []
     | primary :: _ =>
       [{ topic := "Educational background at " ++ jsStr primary.school
          relevance := Significance.low
          context := "Studied " ++ orStr primary.degree "at" ++ " " ++ jsStr primary.school
          suggestedApproach := "Mention shared educational experiences or ask about their time at "
            ++ jsStr primary.school }])
  sortDescBy (fun t => relevanceOrder t.relevance) topics

/-- Networking-opportunity kinds. -/
inductive OpportunityType where
  | shared_experience | industry_connection | skill_synergy | educational_background | career_advice
deriving DecidableEq, Repr

/-- A derived networking opportunity (TS field `type` is `otype` here). -/
structure NetworkingOpportunity where
  otype : OpportunityType
  description : String
  confidence : Significance
deriving DecidableEq, Repr

/-- `identifyNetworkingOpportunities`: one independent rule per signal. -/
def identifyNetworkingOpportunities (p : RawProfile) (personalInfo : PersonalContext)
    (professionalJourney : ProfessionalJourney) (expertise : ExpertiseContext) :
    List NetworkingOpportunity :=
  let acc : List NetworkingOpportunity :=
    (if strTruthy personalInfo.industry then
      [{ otype := OpportunityType.industry_connection
         description := "Connect over shared " ++ jsStr personalInfo.industry
           ++ " industry experience"
         confidence := Significance.high }]
    else [])
  let acc := acc ++
    (if 0 < expertise.coreSkills.length then
      [{ otype := OpportunityType.skill_synergy
         description := "Potential collaboration in "
           ++ String.intercalate " and " (expertise.coreSkills.take 2)
         confidence := Significance.medium }]
    else [])
  let acc := acc ++
    (if personalInfo.careerLevel == CareerLevel.senior
        || personalInfo.careerLevel == CareerLevel.executive then
      [{ otype := OpportunityType.career_advice
         description := "Seek insights from their " ++ jsNumStr personalInfo.yearsOfExperience
           ++ "+ years of experience"
         confidence := Significance.high }]
    else [])
  acc ++
    (if 0 < (orList p.education).length then
      [{ otype := OpportunityType.educational_background
         description := "Connect over shared educational experiences or alma mater"
         confidence := Significance.low }]
    else [])

/-- The full derived profile context. -/
structure ProfileContext where
  personalInfo : PersonalContext
  professionalJourney : ProfessionalJourney
  expertise : ExpertiseContext
  interests : InterestContext
  conversationTopics : List ConversationTopic
  networkingOpportunities : List NetworkingOpportunity
deriving DecidableEq, Repr

/-- `analyzeProfileForRAG`: the top-level pure analysis (a total function —
the embedding witnesses that no input can make it raise). `nowMs` models the
clock read by `new Date()` for `Present` date ranges. -/
def analyzeProfileForRAG (nowMs : ℤ) (p : RawProfile) : ProfileContext :=
  let personalInfo := extractPersonalContext nowMs p
  let professionalJourney := analyzeProfessionalJourney p
  let expertise := extractExpertiseContext p
  { personalInfo := personalInfo
    professionalJourney := professionalJourney
    expertise := expertise
    interests := extractInterestContext p
    conversationTopics := generateConversationTopics p personalInfo professionalJourney expertise
    networkingOpportunities :=
      identifyNetworkingOpportunities p personalInfo professionalJourney expertise }

/-! ## Question catalog (`data/conversationStarters`)

The catalog data module itself is not part of the analysed sources — only its
interface is: a static list of `ConversationStarter`s with a category filter,
a tag filter and a random picker. The list is therefore a parameter
everywhere, and the two accessors the selection engine consumes are modelled
from the spec. -/

/-- A catalog entry: `{id: unique integer, category, subcategory, question, tags}`. -/
structure ConversationStarter where
  id : Nat
  category : String
  subcategory : String
  question : String
  tags : List String
deriving DecidableEq, Repr

/-- Modelled from the spec: the catalog module's `getQuestionsByCategory`
(missing from the sources) returns the catalog entries of one category. -/
def getQuestionsByCategory (catalog : List ConversationStarter) (category : String) :
    List ConversationStarter :=
  catalog.filter (fun q => q.category == category)

/-- Index of one uniform draw into a pool of the given positive length. -/
def pickIdx (rand : Nat → ℚ) (k : Nat) (len : Nat) : Nat :=
  ((rand k * (len : ℚ)).floor.toNat) % len

/-- Uniform pick without replacement, driven by the injected random stream:
each draw selects an index into the remaining pool. Picks the whole pool when
it has at most `count` entries, regardless of the draws. -/
def pickRandom (rand : Nat → ℚ) : Nat → List ConversationStarter → Nat →
    List ConversationStarter × Nat
  | 0, _, k => ([], k)
  | _ + 1, [], k => ([], k)
  | n + 1, q :: qs, k =>
    let i := pickIdx rand k (q :: qs).length
    let chosen := (q :: qs).get ⟨i, Nat.mod_lt _ (Nat.succ_pos _)⟩
    let (rest, k1) := pickRandom rand n ((q :: qs).eraseIdx i) (k + 1)
    (chosen :: rest, k1)

/-- Modelled from the spec: the catalog module's `getRandomQuestions` (missing
from the sources) draws up to `count` uniformly random catalog entries whose
ids are not in `exclude`, "until `count` is reached or the catalog is
exhausted" (§4.3 step 3). -/
def getRandomQuestions (catalog : List ConversationStarter) (count : Nat) (exclude : List Nat)
    (rand : Nat → ℚ) (k : Nat) : List ConversationStarter × Nat :=
  pickRandom rand count (catalog.filter (fun q => !(exclude.contains q.id))) k

/-! ## ConversationService -/

/-- The `profileData` shape consumed by the conversation service. The
`experience` entries are opaque to the service — only the array length is ever
read — so they are modelled as `Unit`. `education` entries here are plain
strings (unlike the raw profile's education records). -/
structure ProfileData where
  name : Option String := none
  title : Option String := none
  company : Option String := none
  industry : Option String := none
  location : Option String := none
  skills : Option (List String) := none
  education : Option (List String) := none
  experience : Option (List Unit) := none
deriving DecidableEq, Repr

/-- A selection request context. `previousQuestionIds` is declared by the
source interface but never read by the service. -/
structure ConversationContext where
  profileData : ProfileData
  previousQuestionIds : Option (List Nat) := none
  sessionId : Option String := none
deriving DecidableEq, Repr

/-- The service's output item. -/
structure PersonalizedQuestion where
  originalQuestion : String
  personalizedQuestion : String
  category : String
  subcategory : String
  relevanceScore : ℚ
deriving DecidableEq, Repr

/-- The per-session store backing `ConversationService.sessionQuestions`
(a map from session id to the ordered list of used question ids; a missing
key reads as `[]`, as `this.sessionQuestions.get(sessionId) || []` does). -/
def SessionStore := String → List Nat

namespace ConversationService

/-- The fixed skill keyword set of `calculateRelevanceScore`. -/
def skillKeywords : List String :=
  ["python", "javascript", "management", "leadership", "data", "analysis"]

/-- `calculateRelevanceScore`: additive bonuses plus the jitter `2 * r`,
where `r` is the `Math.random()` draw. -/
def calculateRelevanceScore (question : ConversationStarter) (profileData : ProfileData)
    (r : ℚ) : ℚ :=
  let score : ℚ := 0
  let score := score +
    (if strTruthy profileData.title then
      (if question.tags.contains "leadership" && optContainsLower profileData.title "lead"
        then 3 else 0)
      + (if question.tags.contains "management" && optContainsLower profileData.title "manager"
        then 3 else 0)
      + (if question.tags.contains "technical"
            && (optContainsLower profileData.title "engineer"
                || optContainsLower profileData.title "developer")
        then 3 else 0)
    else 0)
  let score := score +
    (if strTruthy profileData.industry then
      (if question.tags.contains "technology" && optContainsLower profileData.industry "tech"
        then 2 else 0)
      + (if question.tags.contains "finance" && optContainsLower profileData.industry "finance"
        then 2 else 0)
    else 0)
  let score := score +
    (match profileData.skills with
    | some skills =>
      if 0 < skills.length then
        (if skills.any (fun skill => skillKeywords.any (fun kw => containsLower skill kw))
            && (question.tags.contains "skills" || question.tags.contains "technical")
          then 2 else 0)
      else 0
    | none => 0)
  let score := score +
    (match profileData.experience with
    | some experience =>
      if 0 < experience.length then
        (if 5 < experience.length && question.tags.contains "senior" then 2 else 0)
        + (if experience.length < 3 && question.tags.contains "early_career" then 2 else 0)
      else 0
    | none => 0)
  score + 2 * r

/-- Score every question in order, consuming one draw per question. -/
def scoreQuestions (profileData : ProfileData) (rand : Nat → ℚ) :
    List ConversationStarter → Nat → List (ConversationStarter × ℚ) × Nat
  | [], k => ([], k)
  | q :: qs, k =>
    let s := calculateRelevanceScore q profileData (rand k)
    let (rest, k1) := scoreQuestions profileData rand qs (k + 1)
    ((q, s) :: rest, k1)

/-- `rankQuestionsByRelevance`: score, stable sort descending, strip scores. -/
def rankQuestionsByRelevance (questions : List ConversationStarter) (profileData : ProfileData)
    (rand : Nat → ℚ) (k : Nat) : List ConversationStarter × Nat :=
  let (scored, k1) := scoreQuestions profileData rand questions k
  ((sortDescBy Prod.snd scored).map Prod.fst, k1)

/-- The fixed ordered category list of `calculateCategoryDistribution`. -/
def serviceCategories : List String :=
  ["career_background", "soft_skills", "personality_motivation"]

/-- `calculateCategoryDistribution`: even split with the remainder going to
the earliest categories (JS `Map` iterates in insertion order). -/
def calculateCategoryDistribution (totalCount : Nat) : List (String × Nat) :=
  let base := totalCount / 3
  let rem := totalCount % 3
  serviceCategories.enum.map (fun pr => (pr.2, base + if pr.1 < rem then 1 else 0))

/-- The per-category phase of `getDiverseQuestions`: for each category, rank
the unused questions of that category and keep the top per-category count. -/
def selectByCategories (catalog : List ConversationStarter) (used : List Nat)
    (profileData : ProfileData) (rand : Nat → ℚ) :
    List (String × Nat) → Nat → List ConversationStarter × Nat
  | [], k => ([], k)
  | (cat, cnt) :: rest, k =>
    let avail := (getQuestionsByCategory catalog cat).filter (fun q => !(used.contains q.id))
    if avail.isEmpty then selectByCategories catalog used profileData rand rest k
    else
      let (ranked, k1) := rankQuestionsByRelevance avail profileData rand k
      let (more, k2) := selectByCategories catalog used profileData rand rest k1
      (ranked.take cnt ++ more, k2)

/-- The selection phase of `getDiverseQuestions`: category-balanced picks,
backfilled with random unused questions when short of `count`. -/
def diverseSelection (catalog : List ConversationStarter) (store : SessionStore)
    (ctx : ConversationContext) (count : Nat) (rand : Nat → ℚ) (k : Nat) :
    List ConversationStarter × Nat :=
  let sid := ctx.sessionId.getD "default"
  let used := store sid
  let (catSel, k1) :=
    selectByCategories catalog used ctx.profileData rand (calculateCategoryDistribution count) k
  if catSel.length < count then
    let (rnd, k2) := getRandomQuestions catalog (count - catSel.length)
      (used ++ catSel.map ConversationStarter.id) rand k1
    (catSel ++ rnd, k2)
  else (catSel, k1)

/-- Try each alternative (case-insensitively) at the current position. -/
def tryAlts (alts : List (List Char)) (cs : List Char) : Option (List Char) :=
  match alts with
  | [] => none
  | a :: rest =>
    match stripLitCI a cs with
    | some suffix => some suffix
    | none => tryAlts rest cs

/-- Global case-insensitive replacement of `pat` followed by one of `alts`
(left to right, non-overlapping, the replacement not rescanned) — the model of
`String.prototype.replace` with a `gi` regex of literals. Fuel decreases once
per step; a non-empty `pat` consumes at least one character per match, so the
initial fuel `length + 1` is never exhausted. -/
def replaceScan (pat : List Char) (alts : List (List Char)) (repl : List Char) :
    Nat → List Char → List Char
  | 0, cs => cs
  | _ + 1, [] => []
  | fuel + 1, c :: rest =>
    match (stripLitCI pat (c :: rest)).bind (tryAlts alts) with
    | some suffix => repl ++ replaceScan pat alts repl fuel suffix
    | none => c :: replaceScan pat alts repl fuel rest

/-- `s.replace(/pat/gi, repl)` for a literal pattern (given lower-case). -/
def replaceAllCI (s : String) (pat : String) (repl : String) : String :=
  String.mk (replaceScan pat.data [[]] repl.data (s.data.length + 1) s.data)

/-- `s.replace(/pat (a|b|...)/gi, repl)` for literal alternatives. -/
def replaceAltsCI (s : String) (pat : String) (alts : List String) (repl : String) : String :=
  String.mk (replaceScan pat.data (alts.map String.data) repl.data (s.data.length + 1) s.data)

/-- The keyword list of `isRoleRelevant`. -/
def roleKeywords : List String := ["work", "job", "role", "career", "professional"]

/-- `isRoleRelevant` (the `title` argument is unused, as in the source). -/
def isRoleRelevant (question : ConversationStarter) (title : String) : Bool :=
  roleKeywords.any (fun kw => containsLower question.question kw)

/-- `isSkillRelevant`. -/
def isSkillRelevant (question : ConversationStarter) : Bool :=
  question.tags.contains "skills" || containsLower question.question "skill"

/-- `isEducationRelevant`. -/
def isEducationRelevant (question : ConversationStarter) : Bool :=
  question.tags.contains "education" || containsLower question.question "background"
    || containsLower question.question "learn"

/-- `personalizeQuestion`: optional name prefix (one draw, only when a name is
present — JS `&&` short-circuits past `Math.random()` otherwise), the three
pattern substitutions, then a fresh relevance score (one more draw). -/
def personalizeQuestion (question : ConversationStarter) (profileData : ProfileData)
    (rand : Nat → ℚ) (k : Nat) : PersonalizedQuestion × Nat :=
  let pq0 := question.question
  let (pq1, k1) :=
    if strTruthy profileData.name then
      (if 1 / 2 < rand k then "Hi " ++ jsStr profileData.name ++ "! " ++ pq0 else pq0, k + 1)
    else (pq0, k)
  let pq2 :=
    if strTruthy profileData.title && strTruthy profileData.company
        && isRoleRelevant question (jsStr profileData.title) then
      replaceAltsCI pq1 "your " ["work", "job", "role", "career"]
        ("your work as " ++ jsStr profileData.title ++ " at " ++ jsStr profileData.company)
    else pq1
  let pq3 :=
    match profileData.skills with
    | some skills =>
      if 0 < skills.length && isSkillRelevant question then
        replaceAllCI pq2 "your skills"
          ("your expertise in " ++ String.intercalate " and " (skills.take 2))
      else pq2
    | none => pq2
  let pq4 :=
    match profileData.education with
    | some (e0 :: _) =>
      if isEducationRelevant question then
        replaceAllCI pq3 "your background" ("your background from " ++ e0)
      else pq3
    | some [] => pq3
    | none => pq3
  ({ originalQuestion := question.question
     personalizedQuestion := pq4
     category := question.category
     subcategory := question.subcategory
     relevanceScore := calculateRelevanceScore question profileData (rand k1) }, k1 + 1)

/-- Personalize a selected list in order, threading the draw cursor. -/
def personalizeList (profileData : ProfileData) (rand : Nat → ℚ) :
    List ConversationStarter → Nat → List PersonalizedQuestion × Nat
  | [], k => ([], k)
  | q :: qs, k =>
    let (pq, k1) := personalizeQuestion q profileData rand k
    let (rest, k2) := personalizeList profileData rand qs k1
    (pq :: rest, k2)

/-- `getDiverseQuestions`: select, record the new ids into the session store
(the single mutation of the call), personalize. Returns the output list, the
updated store and the advanced draw cursor. -/
def getDiverseQuestions (catalog : List ConversationStarter) (store : SessionStore)
    (ctx : ConversationContext) (count : Nat) (rand : Nat → ℚ) (k : Nat) :
    List PersonalizedQuestion × SessionStore × Nat :=
  let sid := ctx.sessionId.getD "default"
  let used := store sid
  let (sel, k1) := diverseSelection catalog store ctx count rand k
  let newStore : SessionStore := fun s =>
    if s == sid then used ++ sel.map ConversationStarter.id else store s
  let (res, k2) := personalizeList ctx.profileData rand sel k1
  (res, newStore, k2)

/-- `clearSession`: delete one session's entry (a later read yields `[]`). -/
def clearSession (store : SessionStore) (sessionId : String) : SessionStore :=
  fun s => if s == sessionId then [] else store s

end ConversationService

/-! ## IntelligentQuestionService

The AI-assisted path. The external pieces are injected: the completion
collaborator as its outcome (`Except` — an `error` covers a missing API key,
a transport error or a timeout), the JS runtime's `JSON.parse` as a partial
parser into a JSON value tree, and the random-comparator shuffle of the
fallback as a list transformation. -/

/-- A JSON value (the shape `JSON.parse` can produce). -/
inductive JVal where
  | jnull : JVal
  | jbool : Bool → JVal
  | jnum : ℚ → JVal
  | jstr : String → JVal
  | jarr : List JVal → JVal
  | jobj : List (String × JVal) → JVal

/-- The service's output item. -/
structure IntelligentQuestion where
  originalQuestion : String
  customizedQuestion : String
  relevanceScore : ℚ
  reasoning : String
  category : String
  subcategory : String
deriving DecidableEq, Repr

namespace IntelligentQuestionService

/-- One education entry of the service's profile shape. -/
structure EducationDetail where
  school : Option String := none
  degree : Option String := none
  field : Option String := none
  startYear : Option String := none
  endYear : Option String := none
deriving DecidableEq, Repr

/-- The profile shape consumed by the service — the fields its selection,
pre-filtering and fallback customization read. (The remaining interface
fields feed only the generated prompt text, which is abstracted away with
the completion collaborator.) -/
structure ProfileContext where
  name : Option String := none
  title : Option String := none
  company : Option String := none
  industry : Option String := none
  location : Option String := none
  currentRole : Option String := none
  yearsOfExperience : Option ℚ := none
  skills : Option (List String) := none
  previousRoles : Option (List String) := none
  keySkillsExpertise : Option (List String) := none
  education : Option (List EducationDetail) := none
deriving DecidableEq, Repr

/-- `determineRoleType`. -/
def determineRoleType (title : Option String) : String :=
  if !strTruthy title then "general"
  else if optContainsLower title "engineer" || optContainsLower title "developer"
      || optContainsLower title "devops" then "technical"
  else if optContainsLower title "manager" || optContainsLower title "director"
      || optContainsLower title "lead" then "management"
  else if optContainsLower title "sales" || optContainsLower title "marketing" then "business"
  else "general"

/-- The title-keyword arm of `determineSeniority`. -/
def determineSeniorityByTitle (title : Option String) : String :=
  if strTruthy title then
    if optContainsLower title "junior" || optContainsLower title "associate" then "entry"
    else if optContainsLower title "senior" || optContainsLower title "lead" then "senior"
    else if optContainsLower title "director" || optContainsLower title "vp"
        || optContainsLower title "chief" then "executive"
    else "mid"
  else "mid"

/-- `determineSeniority` (years win when truthy; then title keywords; else mid). -/
def determineSeniority (title : Option String) (yearsOfExperience : Option ℚ) : String :=
  match yearsOfExperience with
  | some y =>
    if y == 0 then determineSeniorityByTitle title
    else if y < 3 then "entry"
    else if y < 7 then "mid"
    else if y < 12 then "senior"
    else "executive"
  | none => determineSeniorityByTitle title

/-- The analysis fields `preFilterQuestions` consumes (the other analysis
outputs feed only the prompt text). -/
structure ProfileAnalysis where
  roleType : String
  seniorityLevel : String
deriving DecidableEq, Repr

/-- `analyzeProfile`, restricted to its consumed outputs. -/
def analyzeProfile (profile : ProfileContext) : ProfileAnalysis :=
  { roleType := determineRoleType profile.title
    seniorityLevel := determineSeniority profile.title profile.yearsOfExperience }

/-- `preFilterQuestions`: role filter, seniority filter, then the
fewer-than-20 fallback to the first 50 catalog entries. -/
def preFilterQuestions (catalog : List ConversationStarter) (profile : ProfileContext)
    (analysis : ProfileAnalysis) : List ConversationStarter :=
  let filtered := catalog
  let filtered :=
    if analysis.roleType == "technical" then
      filtered.filter (fun q => q.tags.contains "technical" || q.tags.contains "skills"
        || q.category == "career_background" || q.category == "personality_motivation")
    else if analysis.roleType == "management" then
      filtered.filter (fun q => q.tags.contains "leadership" || q.tags.contains "management"
        || q.tags.contains "team" || q.category == "soft_skills")
    else filtered
  let filtered :=
    if analysis.seniorityLevel == "senior" || analysis.seniorityLevel == "executive" then
      filtered.filter (fun q => !q.tags.contains "early_career"
        && (q.tags.contains "leadership" || q.tags.contains "mentorship"
            || q.tags.contains "strategy"))
    else if analysis.seniorityLevel == "entry" then
      filtered.filter (fun q => q.tags.contains "learning" || q.tags.contains "growth"
        || q.tags.contains "early_career" || q.category == "career_background")
    else filtered
  if filtered.length < 20 then catalog.take 50 else filtered

/-- Extraction of the regex `\{[\s\S]*\}` from the AI response: from the first
opening brace (one with some closing brace after it) to the last closing
brace, greedily; `none` when no such block exists. -/
def extractBraces (s : String) : Option String :=
  let cs := s.data
  let fromBrace := cs.dropWhile (fun c => !(c == '\x7b'))
  let upToClose := (fromBrace.reverse.dropWhile (fun c => !(c == '\x7d'))).reverse
  match upToClose with
  | [] => none
  | l => some (String.mk l)

/-- JS object field lookup for the parsed JSON (`JSON.parse` keeps the last
of duplicate keys). -/
def jlookup (fields : List (String × JVal)) (name : String) : Option JVal :=
  (fields.reverse.find? (fun pr => pr.1 == name)).map (fun pr => pr.2)

/-- Display rendering of a JSON value stored into a string-typed slot
(only reachable on type-corrupt AI output; no claim inspects it). -/
def jvalRender : JVal → String
  | JVal.jnull => "null"
  | JVal.jbool true => "true"
  | JVal.jbool false => "false"
  | JVal.jnum q => jsNumStr q
  | JVal.jstr s => s
  | JVal.jarr _ => "[array]"
  | JVal.jobj _ => "[object Object]"

/-- `parsed.questions || []` with JS semantics: property access on `null`
throws (`none`); a missing/falsy field defaults to `[]`; a non-iterable truthy
value throws in the subsequent `for..of`; a string iterates its characters. -/
def questionsOf : JVal → Option (List JVal)
  | JVal.jnull => none
  | JVal.jobj fields =>
    match jlookup fields "questions" with
    | none => some []
    | some JVal.jnull => some []
    | some (JVal.jbool false) => some []
    | some (JVal.jbool true) => none
    | some (JVal.jnum q) => if q == 0 then some [] else none
    | some (JVal.jstr s) => some (s.data.map (fun c => JVal.jstr (String.mk [c])))
    | some (JVal.jarr elems) => some elems
    | some (JVal.jobj _) => none
  | _ => some []

/-- Property access `q.name` on a JSON value: throws on `null` (outer `none`),
yields `undefined` (inner `none`) on non-objects and missing fields. -/
def propOf : JVal → String → Option (Option JVal)
  | JVal.jnull, _ => none
  | JVal.jobj fields, name => some (jlookup fields name)
  | _, _ => some none

/-- `q.relevanceScore || 80`: a non-zero number wins; anything falsy defaults.
(A truthy non-number would corrupt the TS `number` field; the model defaults
it — only reachable on type-corrupt AI output, which no claim exercises.) -/
def jsNumOr (v : Option JVal) (d : ℚ) : ℚ :=
  match v with
  | some (JVal.jnum x) => if x == 0 then d else x
  | _ => d

/-- `q.reasoning || default` with JS truthiness on the JSON value. -/
def jsStrOr (v : Option JVal) (d : String) : String :=
  match v with
  | some (JVal.jstr s) => if s == "" then d else s
  | some JVal.jnull => d
  | some (JVal.jbool false) => d
  | some (JVal.jbool true) => "true"
  | some (JVal.jnum x) => if x == 0 then d else jsNumStr x
  | some (JVal.jarr l) => jvalRender (JVal.jarr l)
  | some (JVal.jobj l) => jvalRender (JVal.jobj l)
  | none => d

/-- The loop body of `parseAIResponse`: entries whose `questionId` resolves in
the candidate list are kept, the rest are silently skipped; a `null` entry
throws. -/
def buildQuestions (candidateQuestions : List ConversationStarter) :
    List JVal → Option (List IntelligentQuestion)
  | [] => some []
  | q :: rest => do
    let vOpt ← propOf q "questionId"
    let found := candidateQuestions.find? (fun cq =>
      match vOpt with
      | some (JVal.jnum x) => x == (cq.id : ℚ)
      | _ => false)
    match found with
    | some orig => do
      let cqv ← propOf q "customizedQuestion"
      let rsv ← propOf q "relevanceScore"
      let rv ← propOf q "reasoning"
      let tail0 ← buildQuestions candidateQuestions rest
      pure ({ originalQuestion := orig.question
              customizedQuestion :=
                (match cqv with
                 | some v => jvalRender v
                 | none => "undefined")
              relevanceScore := jsNumOr rsv 80
              reasoning := jsStrOr rv "AI selected as relevant"
              category := orig.category
              subcategory := orig.subcategory } :: tail0)
    | none => buildQuestions candidateQuestions rest

/-- `parseAIResponse`: locate the first braced block, parse it with the
runtime's JSON parser (injected; `none` is a parse exception), then build the
result list. A `none` result models the function throwing, which the caller's
catch-all turns into the fallback path. -/
def parseAIResponse (jsonParse : String → Option JVal) (response : String)
    (candidateQuestions : List ConversationStarter) : Option (List IntelligentQuestion) := do
  let block ← extractBraces response
  let parsed ← jsonParse block
  let elems ← questionsOf parsed
  buildQuestions candidateQuestions elems

/-- `basicCustomization`: the rule-based substitutions of the fallback path,
applied sequentially (later rules do rescan earlier rules' output, as in the
source). -/
def basicCustomization (question : String) (profile : ProfileContext) : String :=
  let customized := question
  let customized :=
    if strTruthy profile.industry then
      let c := ConversationService.replaceAllCI customized "your industry"
        ("your " ++ jsStr profile.industry ++ " industry")
      ConversationService.replaceAllCI c "the industry"
        ("the " ++ jsStr profile.industry ++ " industry")
    else customized
  let customized :=
    if strTruthy profile.title && strTruthy profile.company then
      let c := ConversationService.replaceAllCI customized "your role"
        ("your role as " ++ jsStr profile.title ++ " at " ++ jsStr profile.company)
      let c := ConversationService.replaceAllCI c "your position"
        ("your position as " ++ jsStr profile.title ++ " at " ++ jsStr profile.company)
      ConversationService.replaceAllCI c "your job" ("your role as " ++ jsStr profile.title)
    else customized
  let customized :=
    if strTruthy profile.company then
      let c := ConversationService.replaceAllCI customized "your company" (jsStr profile.company)
      ConversationService.replaceAllCI c "at work" ("at " ++ jsStr profile.company)
    else customized
  let customized :=
    match profile.education with
    | some (primary :: _) =>
      if strTruthy primary.school && strTruthy primary.degree then
        let c := ConversationService.replaceAllCI customized "your education"
          ("your " ++ jsStr primary.degree ++ " from " ++ jsStr primary.school)
        ConversationService.replaceAllCI c "your background"
          ("your background with a " ++ jsStr primary.degree ++ " from " ++ jsStr primary.school)
      else customized
    | _ => customized
  let customized :=
    if numTruthy profile.yearsOfExperience then
      ConversationService.replaceAllCI customized "your experience"
        ("your " ++ jsNumStr (profile.yearsOfExperience.getD 0) ++ " years of experience")
    else customized
  let customized :=
    match profile.keySkillsExpertise with
    | some (s0 :: srest) =>
      let topSkills := String.intercalate " and " ((s0 :: srest).take 2)
      let c := ConversationService.replaceAllCI customized "your skills"
        ("your expertise in " ++ topSkills)
      ConversationService.replaceAllCI c "your expertise" ("your expertise in " ++ topSkills)
    | _ => customized
  match profile.previousRoles with
  | some (r0 :: rrest) =>
    let previousRole := (r0 :: rrest).getLast (by simp)
    let c := ConversationService.replaceAllCI customized "your previous role"
      ("your previous role as " ++ previousRole)
    ConversationService.replaceAllCI c "your career"
      ("your career progression from " ++ previousRole ++ " to "
        ++ orStr profile.title "your current role")
  | _ => customized

/-- `fallbackQuestionSelection`: first `count*2` catalog entries, permuted by
the random-comparator sort (injected as `shuffle`), top `count`, each run
through `basicCustomization` with score 70. -/
def fallbackQuestionSelection (catalog : List ConversationStarter)
    (shuffle : List ConversationStarter → List ConversationStarter)
    (profile : ProfileContext) (count : Nat) : List IntelligentQuestion :=
  let questions := (shuffle (catalog.take (count * 2))).take count
  questions.map (fun q =>
    { originalQuestion := q.question
      customizedQuestion := basicCustomization q.question profile
      relevanceScore := 70
      reasoning := "Fallback selection"
      category := q.category
      subcategory := q.subcategory })

/-- `getIntelligentQuestions`: analysis and pre-filter, then the AI attempt —
completion call (injected as its outcome `aiResponse`; an `error` covers a
missing key, transport failure or timeout) followed by response parsing — with
every failure caught and delegated to `fallbackQuestionSelection`. -/
def getIntelligentQuestions (catalog : List ConversationStarter)
    (shuffle : List ConversationStarter → List ConversationStarter)
    (jsonParse : String → Option JVal) (aiResponse : Except String String)
    (profile : ProfileContext) (count : Nat) : List IntelligentQuestion :=
  let analysis := analyzeProfile profile
  let relevantQuestions := preFilterQuestions catalog profile analysis
  let attempt : Option (List IntelligentQuestion) :=
    match aiResponse with
    | Except.error _ => none
    | Except.ok response => parseAIResponse jsonParse response relevantQuestions
  match attempt with
  | some qs => qs
  | none => fallbackQuestionSelection catalog shuffle profile count

end IntelligentQuestionService

/-! ## Claim-side definitions (spec wording, for refinement comparisons) -/

/-- The relevance bonuses exactly as the claim words them: every rule keyed
only on its content test — in particular the experience-length rules fire
whenever the (present) experience array's length passes the bound, with no
non-emptiness guard. For comparison with the source scorer. -/
def claimedRelevanceBonus (question : ConversationStarter) (profileData : ProfileData) : ℚ :=
  (if question.tags.contains "leadership" && optContainsLower profileData.title "lead"
    then 3 else 0)
  + (if question.tags.contains "management" && optContainsLower profileData.title "manager"
    then 3 else 0)
  + (if question.tags.contains "technical"
        && (optContainsLower profileData.title "engineer"
            || optContainsLower profileData.title "developer")
    then 3 else 0)
  + (if question.tags.contains "technology" && optContainsLower profileData.industry "tech"
    then 2 else 0)
  + (if question.tags.contains "finance" && optContainsLower profileData.industry "finance"
    then 2 else 0)
  + (if (orList profileData.skills).any
        (fun skill => ConversationService.skillKeywords.any (fun kw => containsLower skill kw))
        && (question.tags.contains "skills" || question.tags.contains "technical")
    then 2 else 0)
  + (match profileData.experience with
    | some experience =>
      (if 5 < experience.length && question.tags.contains "senior" then 2 else 0)
      + (if experience.length < 3 && question.tags.contains "early_career" then 2 else 0)
    | none => 0)

/-- The claim's bonus list amended with the source's guard: the two
experience-length rules fire only when the experience array is present and
non-empty (the single change the counterexample forces). -/
def amendedRelevanceBonus (question : ConversationStarter) (profileData : ProfileData) : ℚ :=
  (if question.tags.contains "leadership" && optContainsLower profileData.title "lead"
    then 3 else 0)
  + (if question.tags.contains "management" && optContainsLower profileData.title "manager"
    then 3 else 0)
  + (if question.tags.contains "technical"
        && (optContainsLower profileData.title "engineer"
            || optContainsLower profileData.title "developer")
    then 3 else 0)
  + (if question.tags.contains "technology" && optContainsLower profileData.industry "tech"
    then 2 else 0)
  + (if question.tags.contains "finance" && optContainsLower profileData.industry "finance"
    then 2 else 0)
  + (if (orList profileData.skills).any
        (fun skill => ConversationService.skillKeywords.any (fun kw => containsLower skill kw))
        && (question.tags.contains "skills" || question.tags.contains "technical")
    then 2 else 0)
  + (match profileData.experience with
    | some experience =>
      if 0 < experience.length then
        (if 5 < experience.length && question.tags.contains "senior" then 2 else 0)
        + (if experience.length < 3 && question.tags.contains "early_career" then 2 else 0)
      else 0
    | none => 0)

/-- The spec's end-to-end scenario profile (9 years of experience). -/
def c5profile : RawProfile :=
  { title := some "Senior Software Engineer", currentCompany := some "Acme",
    yearsOfExperience := some 9, skills := some ["python", "leadership"] }

/-- Concrete question for the C6 counterexample: tagged `early_career`. -/
def c6question : ConversationStarter :=
  { id := 5, category := "career_background", subcategory := "past",
    question := "How did you start out?", tags := ["early_career"] }

/-- Concrete profile for the C6 counterexample: a present-but-empty
experience array. -/
def c6profile : ProfileData := { experience := some [] }

/-- Concrete catalog question for the C3 counterexample. -/
def c3question : ConversationStarter :=
  { id := 1, category := "career_background", subcategory := "cb",
    question := "What drives you?", tags := [] }

/-- One-question catalog for the C3 counterexample. -/
def c3cat : List ConversationStarter := [c3question]

/-- The JS runtime JSON parser restricted to the C3 counterexample's
response: "\x7b\x7d" parses to the empty object, everything else throws. -/
def c3parse : String → Option JVal :=
  fun s => if s == "\x7b\x7d" then some (JVal.jobj []) else none

/-- C10 catalog entry in `career_background`. -/
def c10q1 : ConversationStarter :=
  { id := 1, category := "career_background", subcategory := "cb",
    question := "One?", tags := [] }

/-- C10 catalog entry in `soft_skills`. -/
def c10q2 : ConversationStarter :=
  { id := 2, category := "soft_skills", subcategory := "ss",
    question := "Two?", tags := [] }

/-- Two-question catalog for C10. -/
def c10cat : List ConversationStarter := [c10q1, c10q2]

/-- Random stream for C10: the two ranking draws and the first
personalization draw are 0, the second personalization draw is 9/10. -/
def c10rand : Nat → ℚ := fun n => if n == 3 then 9 / 10 else 0

/-- Anonymous-session selection context over the empty profile, for C10. -/
def c10ctx : ConversationContext := { profileData := {} }

/-- C1 witness catalog entry in `career_background`. -/
def c1q1 : ConversationStarter :=
  { id := 11, category := "career_background", subcategory := "cb",
    question := "First?", tags := [] }

/-- C1 witness catalog entry in `soft_skills`. -/
def c1q2 : ConversationStarter :=
  { id := 12, category := "soft_skills", subcategory := "ss",
    question := "Second?", tags := [] }

/-- Two-question catalog for the C1 witness. -/
def c1cat : List ConversationStarter := [c1q1, c1q2]

/-- Session store for the C1 witness: id 11 already used by session "A". -/
def c1store : SessionStore := fun s => if s == "A" then [11] else []

/-- Selection context for the C1 witness: session "A". -/
def c1ctx : ConversationContext := { profileData := {}, sessionId := some "A" }

/-! ## Theorems -/

/-- The derived total experience is never negative (the `Math.max(…, 0)` floor). -/
theorem calculateExperienceYears_nonneg (nowMs : ℤ) (experience : Option (List RawExperience)) :
    0 ≤ calculateExperienceYears nowMs experience := by
  rcases experience with _ | (_ | ⟨e, t⟩) <;>
    simp [calculateExperienceYears, le_max_right]

/-- C5: the derived career level follows the spec mapping — years below 3
give entry, 3 through 7 mid, 8 through 14 senior, 15 or more executive — and
the spec's end-to-end profile with 9 years of experience analyzes to senior. -/
theorem c5_career_level_mapping (y : ℚ) (e : Option (List RawExperience)) :
    (y < 3 → determineCareerLevel y e = CareerLevel.entry)
    ∧ (3 ≤ y → y ≤ 7 → determineCareerLevel y e = CareerLevel.mid)
    ∧ (8 ≤ y → y ≤ 14 → determineCareerLevel y e = CareerLevel.senior)
    ∧ (15 ≤ y → determineCareerLevel y e = CareerLevel.executive)
    ∧ (analyzeProfileForRAG 0 c5profile).personalInfo.careerLevel = CareerLevel.senior := by
  refine ⟨fun h => ?_, fun h1 h2 => ?_, fun h1 h2 => ?_, fun h => ?_, rfl⟩
  all_goals unfold determineCareerLevel
  all_goals split_ifs <;> first | rfl | linarith

/-- C5 witness: the mapping instantiated at 2, 5, 9 and 20 years. -/
theorem c5_career_level_mapping_witness :
    determineCareerLevel 2 none = CareerLevel.entry
    ∧ determineCareerLevel 5 none = CareerLevel.mid
    ∧ determineCareerLevel 9 none = CareerLevel.senior
    ∧ determineCareerLevel 20 none = CareerLevel.executive :=
  ⟨(c5_career_level_mapping 2 none).1 (by norm_num),
   (c5_career_level_mapping 5 none).2.1 (by norm_num) (by norm_num),
   (c5_career_level_mapping 9 none).2.2.1 (by norm_num) (by norm_num),
   (c5_career_level_mapping 20 none).2.2.2.1 (by norm_num)⟩

/-- C9: whenever the raw experience list is non-empty, the first entry of the
derived career progression has `isCurrent = true` and significance `high`,
even when the raw first item's `isCurrent` is absent or false. -/
theorem c9_first_step_current_high (nowMs : ℤ) (p : RawProfile) (e : RawExperience)
    (rest : List RawExperience) (h : p.experience = some (e :: rest)) :
    ((analyzeProfileForRAG nowMs p).professionalJourney.careerProgression.head?).map
      (fun s => (s.isCurrent, s.significance)) = some (true, Significance.high) := by
  simp [analyzeProfileForRAG, analyzeProfessionalJourney, orList, h, List.enum,
    List.enumFrom, determineRoleSignificance]

/-- C9 witness: a profile whose only experience item carries
`isCurrent: false` still analyzes to a current, high-significance first step. -/
theorem c9_first_step_current_high_witness :
    ((analyzeProfileForRAG 0 { experience := some [({ isCurrent := some false } : RawExperience)]
      }).professionalJourney.careerProgression.head?).map
      (fun s => (s.isCurrent, s.significance)) = some (true, Significance.high) :=
  c9_first_step_current_high 0 _ _ _ rfl

/-- C4: "1 yr 6 mos" contributes 18 months = 1.5 years (and a lone such
experience totals 1.5); "9 mos" contributes 9 months = 0.75 years;
"Jan 2020 – Jan 2022" contributes 25 months, within 0.1 of 2.0 years; a
duration matching neither the token regexes nor the date-range regex
contributes 0 (the parser is total, so it never raises); the total sums
per-experience months, converts to years rounded half-up to one decimal
(1.5 + 0.75 years of months round to 2.3) and is floored at 0. -/
theorem c4_duration_parsing :
    expMonths 0 "1 yr 6 mos" = 18
    ∧ ((expMonths 0 "1 yr 6 mos" : ℚ) / 12 = 3 / 2)
    ∧ calculateExperienceYears 0 (some [{ duration := some "1 yr 6 mos" }]) = 3 / 2
    ∧ expMonths 0 "9 mos" = 9
    ∧ ((expMonths 0 "9 mos" : ℚ) / 12 = 3 / 4)
    ∧ expMonths 0 "Jan 2020 – Jan 2022" = 25
    ∧ |(expMonths 0 "Jan 2020 – Jan 2022" : ℚ) / 12 - 2| ≤ 1 / 10
    ∧ (∀ nowMs d, scanYear d.data = none → scanMonth d.data = none →
        scanDateRange d.data = none → expMonths nowMs d = 0)
    ∧ calculateExperienceYears 0
        (some [{ duration := some "1 yr 6 mos" }, { duration := some "9 mos" }]) = 23 / 10
    ∧ (∀ nowMs exps, 0 ≤ calculateExperienceYears nowMs exps) := by
  have h18 : expMonths 0 "1 yr 6 mos" = 18 := by decide
  have h9 : expMonths 0 "9 mos" = 9 := by decide
  have h25 : expMonths 0 "Jan 2020 – Jan 2022" = 25 := by decide
  have hne1 : ¬("1 yr 6 mos" = "") := by decide
  have hne2 : ¬("9 mos" = "") := by decide
  refine ⟨h18, by rw [h18]; norm_num, ?_, h9, by rw [h9]; norm_num, h25,
    by rw [h25]; rw [abs_le]; constructor <;> norm_num, ?_, ?_,
    fun nowMs exps => calculateExperienceYears_nonneg nowMs exps⟩
  · simp only [calculateExperienceYears, List.foldl_cons, List.foldl_nil]
    norm_num [h18, hne1, Rat.floor_def']
  · intro nowMs d h1 h2 h3
    simp [expMonths, h1, h2, h3]
  · simp only [calculateExperienceYears, List.foldl_cons, List.foldl_nil]
    norm_num [h18, h9, hne1, hne2, Rat.floor_def']

/-- C4 witness: the unparseable-duration clause instantiated at "n/a". -/
theorem c4_duration_parsing_witness : expMonths 0 "n/a" = 0 :=
  c4_duration_parsing.2.2.2.2.2.2.2.1 0 "n/a" (by decide) (by decide) (by decide)

/-- C7 amended: a skill lands in `coreSkills` exactly when it matches the
core vocabulary and in `technicalSkills` exactly when it matches the
technical vocabulary; the buckets are disjoint whenever no listed skill
matches both vocabularies — but a skill matching both appears in both
(there is no first-match-wins). -/
theorem c7_skill_buckets (skills : List String)
    (h : ∀ s ∈ skills, ¬(coreSkillKeywords.any (fun kw => containsLower s kw) = true
        ∧ techKeywords.any (fun kw => containsLower s kw) = true)) :
    (∀ s, s ∈ identifyCoreSkills skills ↔
      s ∈ skills ∧ coreSkillKeywords.any (fun kw => containsLower s kw) = true)
    ∧ (∀ s, s ∈ identifyTechnicalSkills skills ↔
      s ∈ skills ∧ techKeywords.any (fun kw => containsLower s kw) = true)
    ∧ List.Disjoint (identifyCoreSkills skills) (identifyTechnicalSkills skills) := by
  refine ⟨fun s => ?_, fun s => ?_, ?_⟩
  · simp [identifyCoreSkills, List.mem_filter]
  · simp [identifyTechnicalSkills, List.mem_filter]
  · intro s hs ht
    rw [identifyCoreSkills, List.mem_filter] at hs
    rw [identifyTechnicalSkills, List.mem_filter] at ht
    exact h s hs.1 ⟨hs.2, ht.2⟩

/-- C7 witness: on the spec's end-to-end skills ["python", "leadership"] — no
skill matching both vocabularies — the buckets are disjoint. -/
theorem c7_skill_buckets_witness :
    List.Disjoint (identifyCoreSkills ["python", "leadership"])
      (identifyTechnicalSkills ["python", "leadership"]) :=
  (c7_skill_buckets ["python", "leadership"] (by decide)).2.2

/-- C7 counterexample: the skill "team ai" matches both vocabularies ("team"
is a core keyword, "ai" a technical one) and is placed in both buckets, so
the buckets are not disjoint — a skill is not placed in at most one. -/
theorem c7_counterexample :
    "team ai" ∈ identifyCoreSkills ["team ai"]
    ∧ "team ai" ∈ identifyTechnicalSkills ["team ai"]
    ∧ ¬ List.Disjoint (identifyCoreSkills ["team ai"]) (identifyTechnicalSkills ["team ai"]) :=
  ⟨by decide, by decide, fun hd => @hd "team ai" (by decide) (by decide)⟩

/-- C2 counterexample: an explicitly negative `yearsOfExperience` passes
through `profile.yearsOfExperience || …` unchanged (a negative number is
truthy), so the analyzed `yearsOfExperience` is `-1`, below zero — the
claimed unconditional non-negativity fails. -/
theorem c2_counterexample :
    (analyzeProfileForRAG 0 { yearsOfExperience := some (-1)
      }).personalInfo.yearsOfExperience = -1
    ∧ ¬(0 ≤ (analyzeProfileForRAG 0 { yearsOfExperience := some (-1)
      }).personalInfo.yearsOfExperience) := by
  have h : (analyzeProfileForRAG 0 { yearsOfExperience := some (-1)
      }).personalInfo.yearsOfExperience = -1 := by
    show (extractPersonalContext 0 _).yearsOfExperience = -1
    norm_num [extractPersonalContext]
  exact ⟨h, by rw [h]; norm_num⟩

/-- C2 amended: for every profile whose explicitly supplied
`yearsOfExperience`, if any, is non-negative — any other field may be absent
and duration strings are arbitrary — the analysis (a total function, hence
never raising) yields a non-negative `yearsOfExperience` and a career level
among the four defined values. -/
theorem c2_analysis_safety (nowMs : ℤ) (p : RawProfile)
    (h : ∀ y, p.yearsOfExperience = some y → 0 ≤ y) :
    0 ≤ (analyzeProfileForRAG nowMs p).personalInfo.yearsOfExperience
    ∧ ((analyzeProfileForRAG nowMs p).personalInfo.careerLevel = CareerLevel.entry
      ∨ (analyzeProfileForRAG nowMs p).personalInfo.careerLevel = CareerLevel.mid
      ∨ (analyzeProfileForRAG nowMs p).personalInfo.careerLevel = CareerLevel.senior
      ∨ (analyzeProfileForRAG nowMs p).personalInfo.careerLevel = CareerLevel.executive) := by
  constructor
  · show 0 ≤ (extractPersonalContext nowMs p).yearsOfExperience
    simp only [extractPersonalContext]
    rcases hy : p.yearsOfExperience with _ | y
    · exact calculateExperienceYears_nonneg nowMs p.experience
    · by_cases h0 : (y == 0) = true
      · simp only [h0, if_true]
        exact calculateExperienceYears_nonneg nowMs p.experience
      · simp only [h0, if_false, Bool.false_eq_true]
        exact h y hy
  · generalize (analyzeProfileForRAG nowMs p).personalInfo.careerLevel = c
    cases c <;> simp

/-- C2 witness: the empty profile (every field absent) analyzes safely. -/
theorem c2_analysis_safety_witness :
    0 ≤ (analyzeProfileForRAG 0 {}).personalInfo.yearsOfExperience
    ∧ ((analyzeProfileForRAG 0 {}).personalInfo.careerLevel = CareerLevel.entry
      ∨ (analyzeProfileForRAG 0 {}).personalInfo.careerLevel = CareerLevel.mid
      ∨ (analyzeProfileForRAG 0 {}).personalInfo.careerLevel = CareerLevel.senior
      ∨ (analyzeProfileForRAG 0 {}).personalInfo.careerLevel = CareerLevel.executive) :=
  c2_analysis_safety 0 {} (fun y hy => Option.noConfusion hy)

/-- An absent or empty optional string contains no non-empty keyword. -/
theorem optContainsLower_false_of_not_truthy (x : Option String) (kw : String)
    (hx : strTruthy x = false) (hkw : kw ≠ "") : optContainsLower x kw = false := by
  rcases x with _ | s
  · rfl
  · have hs : s = "" := by
      by_contra hne
      simp [strTruthy, hne] at hx
    subst hs
    rcases hkwd : kw.data with _ | ⟨c, cs⟩
    · exact absurd (String.ext hkwd) hkw
    · simp [optContainsLower, containsLower, hkwd, listInfixOfB, listPrefixOfB]

/-- A guarded score summand is non-negative when its payload is. -/
theorem ite_score_nonneg {c : Prop} [Decidable c] (a : ℚ) (h : 0 ≤ a) :
    0 ≤ if c then a else 0 := by
  split_ifs <;> simp [h]

/-- The amended bonus sum is non-negative. -/
theorem amendedRelevanceBonus_nonneg (q : ConversationStarter) (pd : ProfileData) :
    0 ≤ amendedRelevanceBonus q pd := by
  obtain ⟨name, title, company, industry, location, skills, education, experience⟩ := pd
  unfold amendedRelevanceBonus
  rcases experience with _ | l
  · dsimp only
    exact add_nonneg (add_nonneg (add_nonneg (add_nonneg (add_nonneg (add_nonneg
      (ite_score_nonneg _ (by norm_num)) (ite_score_nonneg _ (by norm_num)))
      (ite_score_nonneg _ (by norm_num))) (ite_score_nonneg _ (by norm_num)))
      (ite_score_nonneg _ (by norm_num))) (ite_score_nonneg _ (by norm_num))) le_rfl
  · dsimp only
    exact add_nonneg (add_nonneg (add_nonneg (add_nonneg (add_nonneg (add_nonneg
      (ite_score_nonneg _ (by norm_num)) (ite_score_nonneg _ (by norm_num)))
      (ite_score_nonneg _ (by norm_num))) (ite_score_nonneg _ (by norm_num)))
      (ite_score_nonneg _ (by norm_num))) (ite_score_nonneg _ (by norm_num)))
      (ite_score_nonneg _ (add_nonneg (ite_score_nonneg _ (by norm_num))
        (ite_score_nonneg _ (by norm_num))))

/-- The source's title guard is redundant: an absent or empty title fails
every title-keyword test anyway. -/
theorem titleGroup_eq (q : ConversationStarter) (title : Option String) :
    (if strTruthy title then
        (if q.tags.contains "leadership" && optContainsLower title "lead" then (3 : ℚ) else 0)
        + (if q.tags.contains "management" && optContainsLower title "manager" then 3 else 0)
        + (if q.tags.contains "technical" && (optContainsLower title "engineer"
            || optContainsLower title "developer") then 3 else 0)
      else 0)
    = (if q.tags.contains "leadership" && optContainsLower title "lead" then (3 : ℚ) else 0)
      + (if q.tags.contains "management" && optContainsLower title "manager" then 3 else 0)
      + (if q.tags.contains "technical" && (optContainsLower title "engineer"
          || optContainsLower title "developer") then 3 else 0) := by
  cases ht : strTruthy title
  · rw [optContainsLower_false_of_not_truthy title "lead" ht (by decide),
      optContainsLower_false_of_not_truthy title "manager" ht (by decide),
      optContainsLower_false_of_not_truthy title "engineer" ht (by decide),
      optContainsLower_false_of_not_truthy title "developer" ht (by decide)]
    norm_num
  · simp

/-- The source's industry guard is redundant for the same reason. -/
theorem industryGroup_eq (q : ConversationStarter) (industry : Option String) :
    (if strTruthy industry then
        (if q.tags.contains "technology" && optContainsLower industry "tech" then (2 : ℚ) else 0)
        + (if q.tags.contains "finance" && optContainsLower industry "finance" then 2 else 0)
      else 0)
    = (if q.tags.contains "technology" && optContainsLower industry "tech" then (2 : ℚ) else 0)
      + (if q.tags.contains "finance" && optContainsLower industry "finance" then 2 else 0) := by
  cases hi : strTruthy industry
  · rw [optContainsLower_false_of_not_truthy industry "tech" hi (by decide),
      optContainsLower_false_of_not_truthy industry "finance" hi (by decide)]
    norm_num
  · simp

/-- The source's skills guard is redundant: an absent or empty skills array
has no matching skill. -/
theorem skillsGroup_eq (q : ConversationStarter) (skills : Option (List String)) :
    (match skills with
      | some sk =>
        if 0 < sk.length then
          (if sk.any (fun skill => ConversationService.skillKeywords.any
                (fun kw => containsLower skill kw))
              && (q.tags.contains "skills" || q.tags.contains "technical")
            then (2 : ℚ) else 0)
        else 0
      | none => 0)
    = (if (orList skills).any (fun skill => ConversationService.skillKeywords.any
          (fun kw => containsLower skill kw))
          && (q.tags.contains "skills" || q.tags.contains "technical")
        then (2 : ℚ) else 0) := by
  rcases skills with _ | (_ | ⟨s0, st⟩) <;> simp [orList]

/-- C6 amended: the source relevance score is the claimed additive bonus sum
amended with the source's guard — the experience-length rules fire only when
the experience array is present and non-empty — plus the jitter `2·r`; the
jitter lies in `[0, 2)` for a draw `r ∈ [0, 1)`, and the score is
non-negative. -/
theorem c6_relevance_score (q : ConversationStarter) (pd : ProfileData) (r : ℚ)
    (h0 : 0 ≤ r) (h1 : r < 1) :
    ConversationService.calculateRelevanceScore q pd r = amendedRelevanceBonus q pd + 2 * r
    ∧ 0 ≤ 2 * r ∧ 2 * r < 2
    ∧ 0 ≤ ConversationService.calculateRelevanceScore q pd r := by
  have heq : ConversationService.calculateRelevanceScore q pd r
      = amendedRelevanceBonus q pd + 2 * r := by
    obtain ⟨name, title, company, industry, location, skills, education, experience⟩ := pd
    unfold ConversationService.calculateRelevanceScore amendedRelevanceBonus
    dsimp only
    rw [titleGroup_eq, industryGroup_eq, skillsGroup_eq]
    ring
  refine ⟨heq, by linarith, by linarith, ?_⟩
  rw [heq]
  have hb := amendedRelevanceBonus_nonneg q pd
  linarith

/-- C6 witness: the amended equality, jitter range and non-negativity at the
concrete question/profile pair with draw 1/2. -/
theorem c6_relevance_score_witness :
    ConversationService.calculateRelevanceScore c6question c6profile (1 / 2)
      = amendedRelevanceBonus c6question c6profile + 2 * (1 / 2)
    ∧ 0 ≤ 2 * (1 / 2 : ℚ) ∧ 2 * (1 / 2 : ℚ) < 2
    ∧ 0 ≤ ConversationService.calculateRelevanceScore c6question c6profile (1 / 2) :=
  c6_relevance_score c6question c6profile (1 / 2) (by norm_num) (by norm_num)

/-- C6 counterexample: on a question tagged `early_career` and a profile with
a present-but-empty experience array, the source scorer (draw 0) returns 0 —
its guard requires a non-empty array — while the claim's rule "experience
length < 3 gives +2" fires, so the claimed equality of score and listed-bonus
sum fails. -/
theorem c6_counterexample :
    ConversationService.calculateRelevanceScore c6question c6profile 0 = 0
    ∧ claimedRelevanceBonus c6question c6profile + 2 * 0 = 2
    ∧ ConversationService.calculateRelevanceScore c6question c6profile 0
        ≠ claimedRelevanceBonus c6question c6profile + 2 * 0 := by
  have h1 : ConversationService.calculateRelevanceScore c6question c6profile 0 = 0 := by
    norm_num [ConversationService.calculateRelevanceScore, c6question, c6profile,
      strTruthy, optContainsLower]
  have h2 : claimedRelevanceBonus c6question c6profile + 2 * 0 = 2 := by
    norm_num [claimedRelevanceBonus, c6question, c6profile, strTruthy, optContainsLower, orList]
  exact ⟨h1, h2, by rw [h1, h2]; norm_num⟩

/-- Personalization maps the selection one-to-one. -/
theorem personalizeList_length (pd : ProfileData) (rand : Nat → ℚ)
    (qs : List ConversationStarter) (k : Nat) :
    (ConversationService.personalizeList pd rand qs k).1.length = qs.length := by
  induction qs generalizing k with
  | nil => rfl
  | cons q t ih => simp [ConversationService.personalizeList, ih]

/-- C8: a selection call reads and mutates only its own session's entry of
the store: every other session's used-id list is unchanged; the session's
list becomes its old value with the ids of the newly selected questions
appended in order; and the returned sequence personalizes exactly those
questions (same length), the store update being the call's only effect on
the store. -/
theorem c8_session_isolation (catalog : List ConversationStarter) (store : SessionStore)
    (ctx : ConversationContext) (count : Nat) (rand : Nat → ℚ) (k : Nat) (other : String)
    (h : other ≠ ctx.sessionId.getD "default") :
    (ConversationService.getDiverseQuestions catalog store ctx count rand k).2.1 other
      = store other
    ∧ (ConversationService.getDiverseQuestions catalog store ctx count rand k).2.1
        (ctx.sessionId.getD "default")
      = store (ctx.sessionId.getD "default")
        ++ (ConversationService.diverseSelection catalog store ctx count rand k).1.map
            ConversationStarter.id
    ∧ (ConversationService.getDiverseQuestions catalog store ctx count rand k).1.length
      = (ConversationService.diverseSelection catalog store ctx count rand k).1.length := by
  refine ⟨?_, ?_, ?_⟩
  · simp [ConversationService.getDiverseQuestions, h]
  · simp [ConversationService.getDiverseQuestions]
  · simp [ConversationService.getDiverseQuestions, personalizeList_length]

/-- C8 witness: instantiated at session "B" against the default session. -/
theorem c8_session_isolation_witness :
    (ConversationService.getDiverseQuestions [] (fun _ => []) { profileData := {} } 0
        (fun _ => 0) 0).2.1 "B" = (fun _ => []) "B"
    ∧ (ConversationService.getDiverseQuestions [] (fun _ => []) { profileData := {} } 0
        (fun _ => 0) 0).2.1 (Option.getD none "default")
      = (fun _ => []) (Option.getD none "default")
        ++ (ConversationService.diverseSelection [] (fun _ => []) { profileData := {} } 0
            (fun _ => 0) 0).1.map ConversationStarter.id
    ∧ (ConversationService.getDiverseQuestions [] (fun _ => []) { profileData := {} } 0
        (fun _ => 0) 0).1.length
      = (ConversationService.diverseSelection [] (fun _ => []) { profileData := {} } 0
        (fun _ => 0) 0).1.length :=
  c8_session_isolation [] (fun _ => []) { profileData := {} } 0 (fun _ => 0) 0 "B" (by decide)

/-- C3 amended: whenever every completion call fails as a transport error (or
a missing key / timeout, all surfacing as an `error` outcome) or returns
output with no parseable JSON block — no braced block at all, or the runtime
parser rejecting the extracted block — the service's output equals the
rule-based fallback path's output for the same inputs. (A response that
parses but lacks the `questions` field instead yields the parsed, empty
result — see the counterexample.) -/
theorem c3_fallback (catalog : List ConversationStarter)
    (shuffle : List ConversationStarter → List ConversationStarter)
    (jsonParse : String → Option JVal) (aiResponse : Except String String)
    (profile : IntelligentQuestionService.ProfileContext) (count : Nat)
    (h : (∃ err, aiResponse = Except.error err)
      ∨ (∃ s, aiResponse = Except.ok s ∧ (IntelligentQuestionService.extractBraces s = none
          ∨ ∀ b, jsonParse b = none))) :
    IntelligentQuestionService.getIntelligentQuestions catalog shuffle jsonParse aiResponse
        profile count
      = IntelligentQuestionService.fallbackQuestionSelection catalog shuffle profile count := by
  rcases h with ⟨err, rfl⟩ | ⟨s, rfl, hs⟩
  · rfl
  · unfold IntelligentQuestionService.getIntelligentQuestions
    rcases hs with hb | hp
    · simp [IntelligentQuestionService.parseAIResponse, hb]
    · rcases hb : IntelligentQuestionService.extractBraces s with _ | b <;>
        simp [IntelligentQuestionService.parseAIResponse, hb, hp]

/-- C3 witness: a pure transport failure delegates to the fallback path. -/
theorem c3_fallback_witness :
    IntelligentQuestionService.getIntelligentQuestions c3cat id c3parse
        (Except.error "transport failure") {} 1
      = IntelligentQuestionService.fallbackQuestionSelection c3cat id {} 1 :=
  c3_fallback c3cat id c3parse (Except.error "transport failure") {} 1 (Or.inl ⟨_, rfl⟩)

/-- C3 counterexample: a completion call that succeeds but returns "\x7b\x7d"
— the claim's missing-`questions`-field failure — produces the empty list,
not the rule-based path's output, on a one-question catalog: the parse
returns an empty result instead of throwing, so no fallback happens. -/
theorem c3_counterexample :
    IntelligentQuestionService.getIntelligentQuestions c3cat id c3parse
        (Except.ok "\x7b\x7d") {} 1 = []
    ∧ IntelligentQuestionService.fallbackQuestionSelection c3cat id {} 1 ≠ []
    ∧ IntelligentQuestionService.getIntelligentQuestions c3cat id c3parse
        (Except.ok "\x7b\x7d") {} 1
      ≠ IntelligentQuestionService.fallbackQuestionSelection c3cat id {} 1 := by
  have h1 : IntelligentQuestionService.getIntelligentQuestions c3cat id c3parse
      (Except.ok "\x7b\x7d") {} 1 = [] := rfl
  have h2 : IntelligentQuestionService.fallbackQuestionSelection c3cat id {} 1 ≠ [] := by
    simp [IntelligentQuestionService.fallbackQuestionSelection, c3cat]
  exact ⟨h1, h2, fun he => h2 (h1 ▸ he.symm)⟩

/-- C10: each returned item's `relevanceScore` comes from a fresh scorer
invocation (with fresh jitter) at personalization time, not from the score
that ranked it — with this random source both ranking draws are 0 yet the
second returned score is 9/5, so the returned sequence is not sorted
descending by its own `relevanceScore` field. -/
theorem c10_rescored_not_sorted :
    ((ConversationService.getDiverseQuestions c10cat (fun _ => []) c10ctx 2 c10rand 0).1.map
        PersonalizedQuestion.relevanceScore) = [0, 9 / 5]
    ∧ ¬ List.Sorted (· ≥ ·)
        ((ConversationService.getDiverseQuestions c10cat (fun _ => []) c10ctx 2 c10rand 0).1.map
          PersonalizedQuestion.relevanceScore) := by
  have h : ((ConversationService.getDiverseQuestions c10cat (fun _ => []) c10ctx 2 c10rand
      0).1.map PersonalizedQuestion.relevanceScore) = [0, 9 / 5] := by
    norm_num [ConversationService.getDiverseQuestions, ConversationService.diverseSelection,
      ConversationService.selectByCategories, ConversationService.calculateCategoryDistribution,
      ConversationService.serviceCategories, ConversationService.rankQuestionsByRelevance,
      ConversationService.scoreQuestions, sortDescBy, insertDescBy,
      ConversationService.personalizeList, ConversationService.personalizeQuestion,
      ConversationService.calculateRelevanceScore, getQuestionsByCategory,
      c10cat, c10q1, c10q2, c10ctx, c10rand, strTruthy, optContainsLower, orList,
      List.enum, List.enumFrom]
  refine ⟨h, ?_⟩
  rw [h]
  norm_num [List.sorted_cons]

/-- Stable insertion keeps the elements. -/
theorem insertDescBy_perm (key : α → ℚ) (x : α) (l : List α) :
    (insertDescBy key x l).Perm (x :: l) := by
  induction l with
  | nil => rfl
  | cons y t ih =>
    unfold insertDescBy
    split_ifs with hc
    · exact (ih.cons y).trans (List.Perm.swap x y t)
    · rfl

/-- The stable descending sort is a permutation. -/
theorem sortDescBy_perm (key : α → ℚ) (l : List α) : (sortDescBy key l).Perm l := by
  induction l with
  | nil => rfl
  | cons x t ih => exact (insertDescBy_perm key x (sortDescBy key t)).trans (ih.cons x)

/-- Scoring pairs every question with a draw, in order. -/
theorem scoreQuestions_fst (pd : ProfileData) (rand : Nat → ℚ)
    (qs : List ConversationStarter) (k : Nat) :
    (ConversationService.scoreQuestions pd rand qs k).1.map Prod.fst = qs := by
  induction qs generalizing k with
  | nil => rfl
  | cons q t ih => simp [ConversationService.scoreQuestions, ih]

/-- Ranking permutes its input (score, stable sort, strip). -/
theorem rankQuestionsByRelevance_perm (qs : List ConversationStarter) (pd : ProfileData)
    (rand : Nat → ℚ) (k : Nat) :
    (ConversationService.rankQuestionsByRelevance qs pd rand k).1.Perm qs := by
  show ((sortDescBy Prod.snd (ConversationService.scoreQuestions pd rand qs k).1).map
    Prod.fst).Perm qs
  have h1 := (sortDescBy_perm Prod.snd (ConversationService.scoreQuestions pd rand qs k).1).map
    Prod.fst
  rw [scoreQuestions_fst pd rand qs k] at h1
  exact h1

/-- Removing the selected index and re-consing it is a permutation. -/
theorem cons_get_eraseIdx_perm (l : List α) : ∀ i : Fin l.length,
    (l.get i :: l.eraseIdx i).Perm l := by
  induction l with
  | nil => intro i; exact absurd i.2 (by simp)
  | cons a t ih =>
    intro i
    rcases i with ⟨v, h⟩
    cases v with
    | zero => simp [List.eraseIdx]
    | succ j =>
      have hp := ih ⟨j, Nat.lt_of_succ_lt_succ h⟩
      simpa [List.eraseIdx] using (List.Perm.swap a _ _).trans (hp.cons a)

/-- The head step of `pickRandom` on a non-empty pool. -/
theorem pickRandom_fst_cons (rand : Nat → ℚ) (n : Nat) (q : ConversationStarter)
    (qs : List ConversationStarter) (k : Nat) :
    (pickRandom rand (n + 1) (q :: qs) k).1
      = (q :: qs).get ⟨pickIdx rand k (q :: qs).length, Nat.mod_lt _ (Nat.succ_pos _)⟩
        :: (pickRandom rand n ((q :: qs).eraseIdx (pickIdx rand k (q :: qs).length)) (k + 1)).1 :=
  rfl

/-- Everything picked comes from the pool. -/
theorem pickRandom_mem (rand : Nat → ℚ) : ∀ (n : Nat) (pool : List ConversationStarter)
    (k : Nat) (q : ConversationStarter), q ∈ (pickRandom rand n pool k).1 → q ∈ pool := by
  intro n
  induction n with
  | zero => intro pool k q hq; simp [pickRandom] at hq
  | succ m ih =>
    intro pool k q hq
    match pool with
    | [] => simp [pickRandom] at hq
    | p :: ps =>
      rw [pickRandom_fst_cons] at hq
      rcases List.mem_cons.mp hq with h | h
      · subst h; exact List.get_mem _ _ _
      · have hq2 := ih _ _ q h
        have hperm := cons_get_eraseIdx_perm (p :: ps)
          ⟨pickIdx rand k (p :: ps).length, Nat.mod_lt _ (Nat.succ_pos _)⟩
        exact hperm.subset (List.mem_cons_of_mem _ hq2)

/-- Picking without replacement from an id-unique pool keeps ids unique. -/
theorem pickRandom_idsNodup (rand : Nat → ℚ) : ∀ (n : Nat) (pool : List ConversationStarter)
    (k : Nat), (pool.map ConversationStarter.id).Nodup →
    ((pickRandom rand n pool k).1.map ConversationStarter.id).Nodup := by
  intro n
  induction n with
  | zero => intro pool k _; simp [pickRandom]
  | succ m ih =>
    intro pool k h
    match pool with
    | [] => simp [pickRandom]
    | p :: ps =>
      rw [pickRandom_fst_cons, List.map_cons]
      have hperm := cons_get_eraseIdx_perm (p :: ps)
        ⟨pickIdx rand k (p :: ps).length, Nat.mod_lt _ (Nat.succ_pos _)⟩
      have hmap := ((hperm.map ConversationStarter.id).nodup_iff).mpr h
      rw [List.map_cons] at hmap
      rcases List.nodup_cons.mp hmap with ⟨hge, herase⟩
      refine List.nodup_cons.mpr ⟨?_, ih _ _ herase⟩
      intro hmem
      rcases List.mem_map.mp hmem with ⟨q, hq, hqid⟩
      exact hge (List.mem_map.mpr ⟨q, pickRandom_mem rand _ _ _ q hq, hqid⟩)

/-- When the requested count covers the pool, the whole pool is picked. -/
theorem pickRandom_perm_of_le (rand : Nat → ℚ) : ∀ (n : Nat) (pool : List ConversationStarter)
    (k : Nat), pool.length ≤ n → (pickRandom rand n pool k).1.Perm pool := by
  intro n
  induction n with
  | zero =>
    intro pool k h
    have hp : pool = [] := List.length_eq_zero.mp (Nat.le_zero.mp h)
    subst hp
    simp [pickRandom]
  | succ m ih =>
    intro pool k h
    match pool with
    | [] => simp [pickRandom]
    | p :: ps =>
      rw [pickRandom_fst_cons]
      have hperm := cons_get_eraseIdx_perm (p :: ps)
        ⟨pickIdx rand k (p :: ps).length, Nat.mod_lt _ (Nat.succ_pos _)⟩
      have hlen : ((p :: ps).eraseIdx (pickIdx rand k (p :: ps).length)).length ≤ m := by
        rw [List.length_eraseIdx]
        have hi : pickIdx rand k (p :: ps).length < (p :: ps).length :=
          Nat.mod_lt _ (Nat.succ_pos _)
        simp only [hi, if_true]
        simp only [List.length_cons] at h ⊢
        omega
      exact ((ih _ _ hlen).cons _).trans hperm

/-- Unfolding of one category step of the selection. -/
theorem sbc_cons_fst (catalog : List ConversationStarter) (used : List Nat) (pd : ProfileData)
    (rand : Nat → ℚ) (cat : String) (cnt : Nat) (rest : List (String × Nat)) (k : Nat) :
    (ConversationService.selectByCategories catalog used pd rand ((cat, cnt) :: rest) k).1
      = (if ((getQuestionsByCategory catalog cat).filter
            (fun q => !(used.contains q.id))).isEmpty then
          (ConversationService.selectByCategories catalog used pd rand rest k).1
        else
          (ConversationService.rankQuestionsByRelevance
              ((getQuestionsByCategory catalog cat).filter (fun q => !(used.contains q.id)))
              pd rand k).1.take cnt
            ++ (ConversationService.selectByCategories catalog used pd rand rest
                (ConversationService.rankQuestionsByRelevance
                  ((getQuestionsByCategory catalog cat).filter (fun q => !(used.contains q.id)))
                  pd rand k).2).1) := by
  show (let avail := (getQuestionsByCategory catalog cat).filter (fun q => !(used.contains q.id))
    if avail.isEmpty then
      ConversationService.selectByCategories catalog used pd rand rest k
    else
      let r := ConversationService.rankQuestionsByRelevance avail pd rand k
      let m := ConversationService.selectByCategories catalog used pd rand rest r.2
      (r.1.take cnt ++ m.1, m.2)).1 = _
  dsimp only
  split_ifs <;> rfl

/-- Membership in one category's available pool. -/
theorem mem_avail (catalog : List ConversationStarter) (used : List Nat) (cat : String)
    (q : ConversationStarter) :
    q ∈ (getQuestionsByCategory catalog cat).filter (fun q => !(used.contains q.id)) ↔
      q ∈ catalog ∧ q.category = cat ∧ used.contains q.id = false := by
  simp only [getQuestionsByCategory, List.mem_filter, and_assoc, Bool.not_eq_true',
    beq_iff_eq]

/-- Every question selected in the category phase is an unused catalog entry
of one of the distributed categories. -/
theorem sbc_mem (catalog : List ConversationStarter) (used : List Nat) (pd : ProfileData)
    (rand : Nat → ℚ) : ∀ (dist : List (String × Nat)) (k : Nat) (q : ConversationStarter),
    q ∈ (ConversationService.selectByCategories catalog used pd rand dist k).1 →
    q ∈ catalog ∧ used.contains q.id = false ∧ q.category ∈ dist.map Prod.fst := by
  intro dist
  induction dist with
  | nil => intro k q hq; simp [ConversationService.selectByCategories] at hq
  | cons hd rest ih =>
    rcases hd with ⟨cat, cnt⟩
    intro k q hq
    rw [sbc_cons_fst] at hq
    split_ifs at hq with hempty
    · rcases ih k q hq with ⟨h1, h2, h3⟩
      exact ⟨h1, h2, by simpa using Or.inr (by simpa using h3)⟩
    · rcases List.mem_append.mp hq with h | h
      · have hr : q ∈ (ConversationService.rankQuestionsByRelevance
            ((getQuestionsByCategory catalog cat).filter (fun q => !(used.contains q.id)))
            pd rand k).1 := List.take_subset _ _ h
        have ha := (rankQuestionsByRelevance_perm _ pd rand k).subset hr
        rcases (mem_avail catalog used cat q).mp ha with ⟨h1, h2, h3⟩
        exact ⟨h1, h3, by simp [h2]⟩
      · rcases ih _ q h with ⟨h1, h2, h3⟩
        exact ⟨h1, h2, by simpa using Or.inr (by simpa using h3)⟩

/-- The category phase returns pairwise-distinct ids when the catalog's ids
are unique and the distributed categories are distinct. -/
theorem sbc_idsNodup (catalog : List ConversationStarter) (used : List Nat) (pd : ProfileData)
    (rand : Nat → ℚ) (hcat : (catalog.map ConversationStarter.id).Nodup) :
    ∀ (dist : List (String × Nat)) (k : Nat), (dist.map Prod.fst).Nodup →
    ((ConversationService.selectByCategories catalog used pd rand dist k).1.map
      ConversationStarter.id).Nodup := by
  intro dist
  induction dist with
  | nil => intro k _; simp [ConversationService.selectByCategories]
  | cons hd rest ih =>
    rcases hd with ⟨cat, cnt⟩
    intro k hdist
    rw [List.map_cons] at hdist
    rcases List.nodup_cons.mp hdist with ⟨hnotin, hrestd⟩
    rw [sbc_cons_fst]
    split_ifs with hempty
    · exact ih k hrestd
    · rw [List.map_append]
      have havail_sub : ((getQuestionsByCategory catalog cat).filter
          (fun q => !(used.contains q.id))).Sublist catalog :=
        (List.filter_sublist _).trans (List.filter_sublist _)
      have havail_nodup : (((getQuestionsByCategory catalog cat).filter
          (fun q => !(used.contains q.id))).map ConversationStarter.id).Nodup :=
        hcat.sublist (havail_sub.map ConversationStarter.id)
      have hrank_nodup := ((rankQuestionsByRelevance_perm
        ((getQuestionsByCategory catalog cat).filter (fun q => !(used.contains q.id)))
        pd rand k).map ConversationStarter.id).nodup_iff.mpr havail_nodup
      have htake_nodup : (((ConversationService.rankQuestionsByRelevance
          ((getQuestionsByCategory catalog cat).filter (fun q => !(used.contains q.id)))
          pd rand k).1.take cnt).map ConversationStarter.id).Nodup :=
        hrank_nodup.sublist ((List.take_sublist _ _).map ConversationStarter.id)
      refine htake_nodup.append (ih _ hrestd) ?_
      intro x hx1 hx2
      rcases List.mem_map.mp hx1 with ⟨q1, hq1, hq1id⟩
      rcases List.mem_map.mp hx2 with ⟨q2, hq2, hq2id⟩
      have ha1 := (rankQuestionsByRelevance_perm _ pd rand k).subset
        (List.take_subset _ _ hq1)
      rcases (mem_avail catalog used cat q1).mp ha1 with ⟨hc1, hcat1, _⟩
      rcases sbc_mem catalog used pd rand rest _ q2 hq2 with ⟨hc2, _, hcat2⟩
      have heq : q1 = q2 :=
        List.inj_on_of_nodup_map hcat hc1 hc2 (hq1id.trans hq2id.symm)
      rw [heq] at hcat1
      rw [hcat1] at hcat2
      exact hnotin hcat2

/-- Erasing an element the filter drops anyway does not change the filter. -/
theorem filter_erase_of_neg (p : ConversationStarter → Bool) (a : ConversationStarter)
    (l : List ConversationStarter) (h : p a = false) :
    (l.erase a).filter p = l.filter p := by
  induction l with
  | nil => rfl
  | cons b t ih =>
    rw [List.erase_cons]
    by_cases hba : b = a
    · subst hba
      simp [List.filter_cons, h]
    · simp only [beq_iff_eq, hba, if_false, List.filter_cons, ih]

/-- A selection of distinct unused elements together with the rest of the
unused pool is a permutation of the whole unused pool. -/
theorem partition_perm : ∀ (sel u : List ConversationStarter),
    (u.map ConversationStarter.id).Nodup →
    (sel.map ConversationStarter.id).Nodup →
    (∀ q ∈ sel, q ∈ u) →
    (sel ++ u.filter
      (fun q => !((sel.map ConversationStarter.id).contains q.id))).Perm u := by
  intro sel
  induction sel with
  | nil =>
    intro u _ _ _
    simp
  | cons s t ih =>
    intro u hu hs hsub
    have hsmem : s ∈ u := hsub s (List.mem_cons_self s t)
    have hvalues : u.Nodup := hu.of_map
    rw [List.map_cons] at hs
    rcases List.nodup_cons.mp hs with ⟨hsid, htid⟩
    have hPneg : (fun q => !(((s :: t).map ConversationStarter.id).contains q.id)) s
        = false := by simp
    have hfe : u.filter (fun q => !(((s :: t).map ConversationStarter.id).contains q.id))
        = (u.erase s).filter (fun q => !((t.map ConversationStarter.id).contains q.id)) := by
      rw [← filter_erase_of_neg _ s u hPneg]
      apply List.filter_congr
      intro q hq
      have hqu : q ∈ u := List.mem_of_mem_erase hq
      have hqs : q ≠ s := (hvalues.mem_erase_iff.mp hq).1
      have hqid : q.id ≠ s.id := fun he => hqs (List.inj_on_of_nodup_map hu hqu hsmem he)
      simp [hqid]
    rw [List.cons_append, hfe]
    have hu' : ((u.erase s).map ConversationStarter.id).Nodup :=
      hu.sublist ((List.erase_sublist s u).map ConversationStarter.id)
    have hsub' : ∀ q ∈ t, q ∈ u.erase s := by
      intro q hq
      have hqu : q ∈ u := hsub q (List.mem_cons_of_mem s hq)
      have hqid : q.id ∈ t.map ConversationStarter.id := List.mem_map.mpr ⟨q, hq, rfl⟩
      have hqs : q ≠ s := fun he => hsid (he ▸ hqid)
      exact hvalues.mem_erase_iff.mpr ⟨hqs, hqu⟩
    exact ((ih (u.erase s) hu' htid hsub').cons s).trans (List.perm_cons_erase hsmem).symm

/-- The distributed categories are the three fixed ones, in order. -/
theorem distribution_fsts (count : Nat) :
    (ConversationService.calculateCategoryDistribution count).map Prod.fst
      = ConversationService.serviceCategories := rfl

/-- C1: with unique catalog ids, a diverse-selection call returns
pairwise-distinct question ids, none of which was in the session's used-id
list at the start of the call; and when fewer than `count` unused catalog
questions remain, it returns exactly the unused remainder (a permutation of
it — in particular a partial result shorter than `count`). The selection is a
total function, so no input makes it raise. -/
theorem c1_diverse_questions (catalog : List ConversationStarter) (store : SessionStore)
    (ctx : ConversationContext) (count : Nat) (rand : Nat → ℚ) (k : Nat)
    (hcat : (catalog.map ConversationStarter.id).Nodup) :
    (((ConversationService.diverseSelection catalog store ctx count rand k).1.map
        ConversationStarter.id).Nodup)
    ∧ (∀ q ∈ (ConversationService.diverseSelection catalog store ctx count rand k).1,
        q.id ∉ store (ctx.sessionId.getD "default"))
    ∧ ((catalog.filter (fun q =>
          !((store (ctx.sessionId.getD "default")).contains q.id))).length < count →
        (ConversationService.diverseSelection catalog store ctx count rand k).1.Perm
          (catalog.filter (fun q =>
            !((store (ctx.sessionId.getD "default")).contains q.id)))) := by
  have hsel : (ConversationService.diverseSelection catalog store ctx count rand k).1
      = (if (ConversationService.selectByCategories catalog
              (store (ctx.sessionId.getD "default")) ctx.profileData rand
              (ConversationService.calculateCategoryDistribution count) k).1.length < count
         then (ConversationService.selectByCategories catalog
              (store (ctx.sessionId.getD "default")) ctx.profileData rand
              (ConversationService.calculateCategoryDistribution count) k).1
           ++ (pickRandom rand
              (count - (ConversationService.selectByCategories catalog
                (store (ctx.sessionId.getD "default")) ctx.profileData rand
                (ConversationService.calculateCategoryDistribution count) k).1.length)
              (catalog.filter (fun q =>
                !((store (ctx.sessionId.getD "default")
                  ++ (ConversationService.selectByCategories catalog
                    (store (ctx.sessionId.getD "default")) ctx.profileData rand
                    (ConversationService.calculateCategoryDistribution count) k).1.map
                    ConversationStarter.id).contains q.id)))
              (ConversationService.selectByCategories catalog
                (store (ctx.sessionId.getD "default")) ctx.profileData rand
                (ConversationService.calculateCategoryDistribution count) k).2).1
         else (ConversationService.selectByCategories catalog
            (store (ctx.sessionId.getD "default")) ctx.profileData rand
            (ConversationService.calculateCategoryDistribution count) k).1) := by
    show (let sid := ctx.sessionId.getD "default"
          let used := store sid
          let cs := ConversationService.selectByCategories catalog used ctx.profileData rand
            (ConversationService.calculateCategoryDistribution count) k
          if cs.1.length < count then
            let rnd := getRandomQuestions catalog (count - cs.1.length)
              (used ++ cs.1.map ConversationStarter.id) rand cs.2
            (cs.1 ++ rnd.1, rnd.2)
          else cs).1 = _
    dsimp only
    unfold getRandomQuestions
    split_ifs <;> rfl
  rw [hsel]
  have hdistn : ((ConversationService.calculateCategoryDistribution count).map Prod.fst).Nodup := by
    rw [distribution_fsts]
    decide
  have hnodCS := sbc_idsNodup catalog (store (ctx.sessionId.getD "default")) ctx.profileData
    rand hcat (ConversationService.calculateCategoryDistribution count) k hdistn
  have hmemCS := sbc_mem catalog (store (ctx.sessionId.getD "default")) ctx.profileData rand
    (ConversationService.calculateCategoryDistribution count) k
  have hpoolsub : (catalog.filter (fun q =>
      !((store (ctx.sessionId.getD "default")
        ++ (ConversationService.selectByCategories catalog
          (store (ctx.sessionId.getD "default")) ctx.profileData rand
          (ConversationService.calculateCategoryDistribution count) k).1.map
          ConversationStarter.id).contains q.id))).Sublist catalog := List.filter_sublist _
  have hpoolnod : ((catalog.filter (fun q =>
      !((store (ctx.sessionId.getD "default")
        ++ (ConversationService.selectByCategories catalog
          (store (ctx.sessionId.getD "default")) ctx.profileData rand
          (ConversationService.calculateCategoryDistribution count) k).1.map
          ConversationStarter.id).contains q.id))).map ConversationStarter.id).Nodup :=
    hcat.sublist (hpoolsub.map ConversationStarter.id)
  refine ⟨?_, ?_, ?_⟩
  · split_ifs with hlt
    · rw [List.map_append]
      refine hnodCS.append (pickRandom_idsNodup rand _ _ _ hpoolnod) ?_
      intro x hx1 hx2
      rcases List.mem_map.mp hx2 with ⟨q2, hq2, hq2id⟩
      have hq2pool := pickRandom_mem rand _ _ _ q2 hq2
      have hq2f := (List.mem_filter.mp hq2pool).2
      simp at hq2f
      rcases List.mem_map.mp hx1 with ⟨q1, hq1, hq1id⟩
      exact hq2f.2 q1 hq1 (hq1id.trans hq2id.symm)
    · exact hnodCS
  · intro q hq
    split_ifs at hq with hlt
    · rcases List.mem_append.mp hq with h | h
      · have h2 := (hmemCS q h).2.1
        simpa using h2
      · have hpool := pickRandom_mem rand _ _ _ q h
        have hf := (List.mem_filter.mp hpool).2
        simp at hf
        exact hf.1
    · have h2 := (hmemCS q hq).2.1
      simpa using h2
  · intro hlt
    have hsubCS : ∀ q ∈ (ConversationService.selectByCategories catalog
        (store (ctx.sessionId.getD "default")) ctx.profileData rand
        (ConversationService.calculateCategoryDistribution count) k).1,
        q ∈ catalog.filter (fun q =>
          !((store (ctx.sessionId.getD "default")).contains q.id)) := by
      intro q hq
      rcases hmemCS q hq with ⟨h1, h2, _⟩
      exact List.mem_filter.mpr ⟨h1, by simpa using h2⟩
    have hvalCS : (ConversationService.selectByCategories catalog
        (store (ctx.sessionId.getD "default")) ctx.profileData rand
        (ConversationService.calculateCategoryDistribution count) k).1.Nodup :=
      hnodCS.of_map
    have hunnod : ((catalog.filter (fun q =>
        !((store (ctx.sessionId.getD "default")).contains q.id))).map
        ConversationStarter.id).Nodup :=
      hcat.sublist ((List.filter_sublist _).map ConversationStarter.id)
    have hlenCS := (hvalCS.subperm hsubCS).length_le
    have hpart := partition_perm _ _ hunnod hnodCS hsubCS
    have hpool : catalog.filter (fun q =>
        !((store (ctx.sessionId.getD "default")
          ++ (ConversationService.selectByCategories catalog
            (store (ctx.sessionId.getD "default")) ctx.profileData rand
            (ConversationService.calculateCategoryDistribution count) k).1.map
            ConversationStarter.id).contains q.id))
        = (catalog.filter (fun q =>
            !((store (ctx.sessionId.getD "default")).contains q.id))).filter (fun q =>
            !(((ConversationService.selectByCategories catalog
              (store (ctx.sessionId.getD "default")) ctx.profileData rand
              (ConversationService.calculateCategoryDistribution count) k).1.map
              ConversationStarter.id).contains q.id)) := by
      rw [List.filter_filter]
      apply List.filter_congr
      intro q _
      simp [Bool.not_or, Bool.and_comm]
    have hlenpool : ((catalog.filter (fun q =>
        !((store (ctx.sessionId.getD "default")).contains q.id))).filter (fun q =>
        !(((ConversationService.selectByCategories catalog
          (store (ctx.sessionId.getD "default")) ctx.profileData rand
          (ConversationService.calculateCategoryDistribution count) k).1.map
          ConversationStarter.id).contains q.id))).length
        = (catalog.filter (fun q =>
            !((store (ctx.sessionId.getD "default")).contains q.id))).length
          - (ConversationService.selectByCategories catalog
            (store (ctx.sessionId.getD "default")) ctx.profileData rand
            (ConversationService.calculateCategoryDistribution count) k).1.length := by
      have hl := hpart.length_eq
      rw [List.length_append] at hl
      omega
    split_ifs with hc
    · have hple : (catalog.filter (fun q =>
          !((store (ctx.sessionId.getD "default")
            ++ (ConversationService.selectByCategories catalog
              (store (ctx.sessionId.getD "default")) ctx.profileData rand
              (ConversationService.calculateCategoryDistribution count) k).1.map
              ConversationStarter.id).contains q.id))).length
          ≤ count - (ConversationService.selectByCategories catalog
            (store (ctx.sessionId.getD "default")) ctx.profileData rand
            (ConversationService.calculateCategoryDistribution count) k).1.length := by
        rw [hpool, hlenpool]
        omega
      rw [hpool]
      rw [hpool] at hple
      have hrnd := pickRandom_perm_of_le rand _ _
        ((ConversationService.selectByCategories catalog
          (store (ctx.sessionId.getD "default")) ctx.profileData rand
          (ConversationService.calculateCategoryDistribution count) k).2) hple
      exact (List.Perm.append_left _ hrnd).trans hpart
    · omega

/-- C1 witness: on a two-question catalog with id 11 already used by session
"A", a request for two questions returns distinct unused ids and, since only
one unused question remains, exactly that remainder. -/
theorem c1_diverse_questions_witness :
    (((ConversationService.diverseSelection c1cat c1store c1ctx 2 (fun _ => 0) 0).1.map
        ConversationStarter.id).Nodup)
    ∧ (∀ q ∈ (ConversationService.diverseSelection c1cat c1store c1ctx 2 (fun _ => 0) 0).1,
        q.id ∉ c1store (c1ctx.sessionId.getD "default"))
    ∧ ((c1cat.filter (fun q =>
          !((c1store (c1ctx.sessionId.getD "default")).contains q.id))).length < 2 →
        (ConversationService.diverseSelection c1cat c1store c1ctx 2 (fun _ => 0) 0).1.Perm
          (c1cat.filter (fun q =>
            !((c1store (c1ctx.sessionId.getD "default")).contains q.id)))) :=
  c1_diverse_questions c1cat c1store c1ctx 2 (fun _ => 0) 0 (by decide)

end Icebreaker
